import Mathlib

/-!
Verification of the astronomyapi repository's REST resource layer.

The embedding models the Flask-RESTful handlers of `resources.py` (the
implementation registered by `server.py`) and of the standalone variant
`astronomy_api.py`, over an explicit in-memory database state.  Request
bodies are JSON objects with scalar field values (the only shapes the
handlers read); responses are a status code plus a JSON body.

Modelling notes, applied uniformly:
* Handlers are pure functions `DB → input → Resp × DB`.  SQLAlchemy session
  mutations become durable only at `db.session.commit()`; on every handler
  path that returns an error before committing, the returned state is the
  original one (Flask-SQLAlchemy removes the scoped session at request
  teardown, rolling back uncommitted changes).
* `Query.get(k)` with an integer primary-key argument is a lookup by id.
  String-typed keys (which MySQL would coerce) are outside the model; all
  claims use integer keys.
* Inserting a duplicate or non-integer primary key, or committing a row
  whose non-null `prop1` does not resolve to a Property (possible because
  the handlers skip validation of falsy `prop1` values), violates a MySQL
  constraint; flask-restful surfaces the resulting IntegrityError as a
  500 response with a JSON message body, and nothing is persisted.
* MySQL DATETIME columns compare by wall-clock value; search-filter
  comparisons therefore ignore any parsed UTC offset.
-/

/-- A scalar JSON value, the only value shape the handlers read from
request bodies or store in rows. -/
inductive JScalar where
  | null
  | bool (b : Bool)
  | int (i : Int)
  | str (s : String)
  deriving DecidableEq

/-- A JSON object: association list from keys to scalar values
(first binding wins, as in a Python dict built from JSON). -/
abbrev JObj := List (String × JScalar)

/-- Python `k in json_data`. -/
def JObj.hasKey (j : JObj) (k : String) : Bool :=
  j.any (fun p => p.1 == k)

/-- Lookup of a key's value, if present. -/
def JObj.get? (j : JObj) (k : String) : Option JScalar :=
  match j.find? (fun p => p.1 == k) with
  | some p => some p.2
  | none => none

/-- Python `json_data.get(k)`: the value if present, else `None`. -/
def JObj.getD (j : JObj) (k : String) : JScalar :=
  (j.get? k).getD .null

/-- Python truthiness of a scalar JSON value. -/
def JScalar.truthy : JScalar → Bool
  | .null => false
  | .bool b => b
  | .int i => i != 0
  | .str s => s ≠ ""

/-- Python datetime (as produced by `datetime.fromisoformat`):
wall-clock fields plus an optional UTC offset in minutes. -/
structure PyDateTime where
  year : Nat
  month : Nat
  day : Nat
  hour : Nat
  minute : Nat
  second : Nat
  microsecond : Nat
  tzOffsetMinutes : Option Int
  deriving DecidableEq

/-- Decimal digit value of a character, if it is a digit. -/
def digitVal (c : Char) : Option Nat :=
  if c.isDigit then some (c.toNat - 48) else none

/-- Parse exactly two decimal digits. -/
def parseTwo : List Char → Option (Nat × List Char)
  | c1 :: c2 :: rest => do
      let d1 ← digitVal c1
      let d2 ← digitVal c2
      pure (d1 * 10 + d2, rest)
  | _ => none

/-- Parse exactly four decimal digits. -/
def parseFour : List Char → Option (Nat × List Char)
  | c1 :: c2 :: c3 :: c4 :: rest => do
      let d1 ← digitVal c1
      let d2 ← digitVal c2
      let d3 ← digitVal c3
      let d4 ← digitVal c4
      pure (((d1 * 10 + d2) * 10 + d3) * 10 + d4, rest)
  | _ => none

/-- Gregorian leap year. -/
def isLeap (y : Nat) : Bool :=
  y % 4 = 0 && (y % 100 ≠ 0 || y % 400 = 0)

/-- Days in a month. -/
def daysInMonth (y m : Nat) : Nat :=
  if m = 2 then (if isLeap y then 29 else 28)
  else if m = 4 ∨ m = 6 ∨ m = 9 ∨ m = 11 then 30
  else 31

/-- Optional fractional-second part: `.` followed by exactly 3 or 6
digits (the forms `datetime.fromisoformat` accepts), as microseconds. -/
def parseFraction : List Char → Option (Nat × List Char)
  | '.' :: rest => do
      let ds := rest.takeWhile Char.isDigit
      let tail := rest.dropWhile Char.isDigit
      let n := ds.foldl (fun acc c => acc * 10 + (c.toNat - 48)) 0
      if ds.length = 3 then pure (n * 1000, tail)
      else if ds.length = 6 then pure (n, tail)
      else none
  | rest => some (0, rest)

/-- Optional UTC offset `±HH:MM` ending the string, in minutes. -/
def parseTzOffset : List Char → Option (Option Int)
  | [] => some none
  | c :: rest =>
      if c = '+' ∨ c = '-' then do
        let (hh, r1) ← parseTwo rest
        match r1 with
        | ':' :: r2 => do
            let (mm, r3) ← parseTwo r2
            if r3 = [] ∧ hh ≤ 23 ∧ mm ≤ 59 then
              let total : Int := (hh : Int) * 60 + (mm : Int)
              pure (some (if c = '+' then total else -total))
            else none
        | _ => none
      else none

/-- Time-of-day part `HH[:MM[:SS[.ffffff]]]` with optional offset. -/
def parseTimePart : List Char → Option (Nat × Nat × Nat × Nat × Option Int)
  | cs => do
      let (h, r1) ← parseTwo cs
      match r1 with
      | ':' :: r2 => do
          let (mi, r3) ← parseTwo r2
          match r3 with
          | ':' :: r4 => do
              let (s, r5) ← parseTwo r4
              let (micro, r6) ← parseFraction r5
              let tz ← parseTzOffset r6
              if h ≤ 23 ∧ mi ≤ 59 ∧ s ≤ 59 then pure (h, mi, s, micro, tz) else none
          | r4 => do
              let tz ← parseTzOffset r4
              if h ≤ 23 ∧ mi ≤ 59 then pure (h, mi, 0, 0, tz) else none
      | r2 => do
          let tz ← parseTzOffset r2
          if h ≤ 23 then pure (h, 0, 0, 0, tz) else none

/-- Python `datetime.fromisoformat` (the classic CPython 3.7-3.10 grammar:
`YYYY-MM-DD`, optionally a single separator character followed by
`HH[:MM[:SS[.fff[fff]]]]` and an optional `±HH:MM` offset). -/
def fromisoformat (s : String) : Option PyDateTime := do
  let cs := s.toList
  let (y, r1) ← parseFour cs
  match r1 with
  | '-' :: r2 => do
      let (mo, r3) ← parseTwo r2
      match r3 with
      | '-' :: r4 => do
          let (d, r5) ← parseTwo r4
          if 1 ≤ y ∧ 1 ≤ mo ∧ mo ≤ 12 ∧ 1 ≤ d ∧ d ≤ daysInMonth y mo then
            match r5 with
            | [] => pure ⟨y, mo, d, 0, 0, 0, 0, none⟩
            | _sep :: r6 => do
                let (h, mi, sec, micro, tz) ← parseTimePart r6
                pure ⟨y, mo, d, h, mi, sec, micro, tz⟩
          else none
      | _ => none
  | _ => none

/-- Zero-padding to two digits. -/
def pad2 (n : Nat) : String :=
  if n < 10 then "0" ++ toString n else toString n

/-- Zero-padding to four digits. -/
def pad4 (n : Nat) : String :=
  if n < 10 then "000" ++ toString n
  else if n < 100 then "00" ++ toString n
  else if n < 1000 then "0" ++ toString n
  else toString n

/-- Zero-padding to six digits. -/
def pad6 (n : Nat) : String :=
  if n < 10 then "00000" ++ toString n
  else if n < 100 then "0000" ++ toString n
  else if n < 1000 then "000" ++ toString n
  else if n < 10000 then "00" ++ toString n
  else if n < 100000 then "0" ++ toString n
  else toString n

/-- Python `datetime.isoformat()`. -/
def PyDateTime.isoformat (d : PyDateTime) : String :=
  pad4 d.year ++ "-" ++ pad2 d.month ++ "-" ++ pad2 d.day ++ "T" ++
  pad2 d.hour ++ ":" ++ pad2 d.minute ++ ":" ++ pad2 d.second ++
  (if d.microsecond = 0 then "" else "." ++ pad6 d.microsecond) ++
  (match d.tzOffsetMinutes with
   | none => ""
   | some o =>
      let a := o.natAbs
      (if o < 0 then "-" else "+") ++ pad2 (a / 60) ++ ":" ++ pad2 (a % 60))

/-- Wall-clock sort key of a datetime (what a MySQL DATETIME comparison
uses; the column type carries no UTC offset). -/
def PyDateTime.key (d : PyDateTime) : Nat :=
  (((((d.year * 13 + d.month) * 32 + d.day) * 24 + d.hour) * 60 + d.minute) * 60 + d.second)
    * 1000000 + d.microsecond

/-- Python `s.replace('Z', '+00:00')` as applied to datetime input text
before parsing: every occurrence of the character `Z` is replaced by
`+00:00`. -/
def pyReplaceZ (s : String) : String :=
  ⟨s.toList.foldr
    (fun c acc =>
      if c = 'Z' then '+' :: '0' :: '0' :: ':' :: '0' :: '0' :: acc else c :: acc)
    []⟩

/-- Python `int(s)`: optional sign followed by digits (surrounding
whitespace and underscore separators are not modelled; no claim uses
them). -/
def parseIntPy (s : String) : Option Int :=
  let core : List Char → Option Nat := fun ds =>
    if ds ≠ [] ∧ ds.all Char.isDigit then
      some (ds.foldl (fun acc c => acc * 10 + (c.toNat - 48)) 0)
    else none
  match s.toList with
  | '-' :: rest => (core rest).map (fun n => -(n : Int))
  | '+' :: rest => (core rest).map (fun n => (n : Int))
  | cs => (core cs).map (fun n => (n : Int))

/-- Row of the `types` table. -/
structure TypeRow where
  id : Int
  name : JScalar
  deriving DecidableEq

/-- Row of the `properities` table. -/
structure PropertyRow where
  id : Int
  name : JScalar
  valueType : JScalar
  deriving DecidableEq

/-- Row of the `places` table. -/
structure PlaceRow where
  id : Int
  name : JScalar
  lat : JScalar
  lon : JScalar
  alt : JScalar
  timezone : JScalar
  deriving DecidableEq

/-- Row of the `instruments` table. -/
structure InstrumentRow where
  id : Int
  name : JScalar
  aperture : JScalar
  power : JScalar
  deriving DecidableEq

/-- Row of the `objects` table. -/
structure ObjectRow where
  id : Int
  name : JScalar
  desination : JScalar
  type : JScalar
  props : JScalar
  deriving DecidableEq

/-- Row of the `observations` table. -/
structure ObservationRow where
  id : Int
  object : JScalar
  place : JScalar
  instrument : JScalar
  datetime : Option PyDateTime
  observation : JScalar
  prop1 : JScalar
  prop1value : JScalar
  deriving DecidableEq

/-- The database state: the six tables. -/
structure DB where
  types : List TypeRow
  properties : List PropertyRow
  places : List PlaceRow
  instruments : List InstrumentRow
  objects : List ObjectRow
  observations : List ObservationRow
  deriving DecidableEq

/-- The empty database. -/
def emptyDB : DB := ⟨[], [], [], [], [], []⟩

/-- `Type.query.get(i)` with an integer primary key. -/
def findTypeRow (l : List TypeRow) (i : Int) : Option TypeRow :=
  l.find? (fun r => r.id == i)

/-- `Property.query.get(i)`. -/
def findPropertyRow (l : List PropertyRow) (i : Int) : Option PropertyRow :=
  l.find? (fun r => r.id == i)

/-- `Place.query.get(i)`. -/
def findPlaceRow (l : List PlaceRow) (i : Int) : Option PlaceRow :=
  l.find? (fun r => r.id == i)

/-- `Instrument.query.get(i)`. -/
def findInstrumentRow (l : List InstrumentRow) (i : Int) : Option InstrumentRow :=
  l.find? (fun r => r.id == i)

/-- `Object.query.get(i)`. -/
def findObjectRow (l : List ObjectRow) (i : Int) : Option ObjectRow :=
  l.find? (fun r => r.id == i)

/-- `Observation.query.get(i)`. -/
def findObservationRow (l : List ObservationRow) (i : Int) : Option ObservationRow :=
  l.find? (fun r => r.id == i)

/-- `Type.query.get(v)` for a foreign-key value taken from a JSON body:
resolves only integer keys (see the modelling notes). -/
def typeGetJ (l : List TypeRow) : JScalar → Option TypeRow
  | .int i => findTypeRow l i
  | _ => none

/-- `Property.query.get(v)` for a JSON foreign-key value. -/
def propertyGetJ (l : List PropertyRow) : JScalar → Option PropertyRow
  | .int i => findPropertyRow l i
  | _ => none

/-- `Place.query.get(v)` for a JSON foreign-key value. -/
def placeGetJ (l : List PlaceRow) : JScalar → Option PlaceRow
  | .int i => findPlaceRow l i
  | _ => none

/-- `Instrument.query.get(v)` for a JSON foreign-key value. -/
def instrumentGetJ (l : List InstrumentRow) : JScalar → Option InstrumentRow
  | .int i => findInstrumentRow l i
  | _ => none

/-- `Object.query.get(v)` for a JSON foreign-key value. -/
def objectGetJ (l : List ObjectRow) : JScalar → Option ObjectRow
  | .int i => findObjectRow l i
  | _ => none

/-- SQL equality of a stored foreign-key value with an integer route id
(`filter_by(col=i)`); a NULL value matches nothing. -/
def jeqInt (v : JScalar) (i : Int) : Bool :=
  v == .int i

/-- The next AUTO_INCREMENT id: one more than the largest id in the
table (fresh by construction, which is all the claims rely on). -/
def nextId (ids : List Int) : Int :=
  ids.foldr (fun i acc => max i acc) 0 + 1

/-- A JSON response body. -/
inductive Body where
  | obj (fields : List (String × JScalar))
  | arr (items : List (List (String × JScalar)))
  | text (s : String)
  | empty
  deriving DecidableEq

/-- An HTTP response: status code plus JSON body. -/
structure Resp where
  status : Nat
  body : Body
  deriving DecidableEq

/-- A `message`-only JSON object body. -/
def msgBody (s : String) : Body :=
  .obj [("message", .str s)]

/-- A response with a `message`-only body. -/
def mresp (c : Nat) (s : String) : Resp :=
  ⟨c, msgBody s⟩

/-- Is a body a JSON object with exactly the one string field
`message`? -/
def isMsgBody : Body → Bool
  | .obj [(k, .str _)] => k == "message"
  | _ => false

/-- Was the status code in the 2xx range? -/
def is2xx (n : Nat) : Bool :=
  200 ≤ n && n < 300

/-- The body a WSGI client receives: werkzeug (`Response.get_app_iter`)
sends no body for 1xx, 204 and 304 responses. -/
def wsgiBody (r : Resp) : Body :=
  if r.status = 204 ∨ r.status = 304 ∨ (100 ≤ r.status ∧ r.status < 200) then .empty
  else r.body

/-- `request.get_json()` followed by the handlers' `if not json_data`
check: a missing body or an empty JSON object both fail it. -/
def jsonData : Option JObj → Option JObj
  | none => none
  | some j => if j = [] then none else some j

/-- Serialization of a Type row (the dict literal in the handlers). -/
def typeRepr (t : TypeRow) : List (String × JScalar) :=
  [("id", .int t.id), ("name", t.name)]

/-- Serialization of a Property row. -/
def propertyRepr (p : PropertyRow) : List (String × JScalar) :=
  [("id", .int p.id), ("name", p.name), ("valueType", p.valueType)]

/-- Serialization of a Place row. -/
def placeRepr (p : PlaceRow) : List (String × JScalar) :=
  [("id", .int p.id), ("name", p.name), ("lat", p.lat), ("lon", p.lon),
   ("alt", p.alt), ("timezone", p.timezone)]

/-- Serialization of an Instrument row. -/
def instrumentRepr (i : InstrumentRow) : List (String × JScalar) :=
  [("id", .int i.id), ("name", i.name), ("aperture", i.aperture), ("power", i.power)]

/-- Serialization of an Object row. -/
def objectRepr (o : ObjectRow) : List (String × JScalar) :=
  [("id", .int o.id), ("name", o.name), ("desination", o.desination),
   ("type", o.type), ("props", o.props)]

/-- Serialization of an Observation row
(`obs.datetime.isoformat() if obs.datetime else None`). -/
def observationRepr (o : ObservationRow) : List (String × JScalar) :=
  [("id", .int o.id), ("object", o.object), ("place", o.place),
   ("instrument", o.instrument),
   ("datetime", match o.datetime with
                | some d => .str d.isoformat
                | none => .null),
   ("observation", o.observation), ("prop1", o.prop1), ("prop1value", o.prop1value)]

/-- Replace every row whose id matches (the ORM mutates the one fetched
row in place; ids are unique in reachable states). -/
def replaceTypeRow (l : List TypeRow) (i : Int) (t : TypeRow) : List TypeRow :=
  l.map (fun r => if r.id == i then t else r)

/-- Replace a Property row in place. -/
def replacePropertyRow (l : List PropertyRow) (i : Int) (p : PropertyRow) : List PropertyRow :=
  l.map (fun r => if r.id == i then p else r)

/-- Replace a Place row in place. -/
def replacePlaceRow (l : List PlaceRow) (i : Int) (p : PlaceRow) : List PlaceRow :=
  l.map (fun r => if r.id == i then p else r)

/-- Replace an Instrument row in place. -/
def replaceInstrumentRow (l : List InstrumentRow) (i : Int) (x : InstrumentRow) : List InstrumentRow :=
  l.map (fun r => if r.id == i then x else r)

/-- Replace an Object row in place. -/
def replaceObjectRow (l : List ObjectRow) (i : Int) (o : ObjectRow) : List ObjectRow :=
  l.map (fun r => if r.id == i then o else r)

/-- Replace an Observation row in place. -/
def replaceObservationRow (l : List ObservationRow) (i : Int) (o : ObservationRow) : List ObservationRow :=
  l.map (fun r => if r.id == i then o else r)

/-- The stored primary key chosen for a create: the client-supplied `id`
when the payload has one (it must be an integer for the insert to
commit), otherwise the next AUTO_INCREMENT value. -/
def chosenId (j : JObj) (ids : List Int) : Option Int :=
  match j.get? "id" with
  | none => some (nextId ids)
  | some (.int i) => some i
  | some _ => none

namespace Resources

/-- `resources.py` TypeListResource.get. -/
def TypeListResource.get (db : DB) : Resp :=
  ⟨200, .arr (db.types.map typeRepr)⟩

/-- `resources.py` TypeListResource.post. -/
def TypeListResource.post (db : DB) (body : Option JObj) : Resp × DB :=
  match jsonData body with
  | none => (mresp 400 "No input data provided", db)
  | some j =>
    if j.hasKey "name" = false then (mresp 400 "Name is required", db)
    else
      match chosenId j (db.types.map (·.id)) with
      | none => (mresp 500 "Internal Server Error", db)
      | some i =>
        if (findTypeRow db.types i).isSome then (mresp 500 "Internal Server Error", db)
        else
          let t : TypeRow := ⟨i, j.getD "name"⟩
          (⟨201, .obj (typeRepr t)⟩, { db with types := db.types ++ [t] })

/-- `resources.py` TypeResource.get. -/
def TypeResource.get (db : DB) (type_id : Int) : Resp :=
  match findTypeRow db.types type_id with
  | none => mresp 404 "Type not found"
  | some t => ⟨200, .obj (typeRepr t)⟩

/-- `resources.py` TypeResource.put. -/
def TypeResource.put (db : DB) (type_id : Int) (body : Option JObj) : Resp × DB :=
  match findTypeRow db.types type_id with
  | none => (mresp 404 "Type not found", db)
  | some t =>
    match jsonData body with
    | none => (mresp 400 "No input data provided", db)
    | some j =>
      let t1 : TypeRow := { t with name := if j.hasKey "name" then j.getD "name" else t.name }
      (⟨200, .obj (typeRepr t1)⟩, { db with types := replaceTypeRow db.types type_id t1 })

/-- `resources.py` TypeResource.delete. -/
def TypeResource.delete (db : DB) (type_id : Int) : Resp × DB :=
  match findTypeRow db.types type_id with
  | none => (mresp 404 "Type not found", db)
  | some _ =>
    if db.objects.any (fun o => jeqInt o.type type_id) then
      (mresp 400 "Cannot delete type that is in use", db)
    else
      (⟨204, msgBody "Type deleted successfully"⟩,
       { db with types := db.types.filter (fun r => !(r.id == type_id)) })

/-- `resources.py` PropertyListResource.get. -/
def PropertyListResource.get (db : DB) : Resp :=
  ⟨200, .arr (db.properties.map propertyRepr)⟩

/-- `resources.py` PropertyListResource.post. -/
def PropertyListResource.post (db : DB) (body : Option JObj) : Resp × DB :=
  match jsonData body with
  | none => (mresp 400 "No input data provided", db)
  | some j =>
    if j.hasKey "name" = false then (mresp 400 "Name is required", db)
    else if j.hasKey "valueType" = false then (mresp 400 "Value type is required", db)
    else
      match chosenId j (db.properties.map (·.id)) with
      | none => (mresp 500 "Internal Server Error", db)
      | some i =>
        if (findPropertyRow db.properties i).isSome then (mresp 500 "Internal Server Error", db)
        else
          let p : PropertyRow := ⟨i, j.getD "name", j.getD "valueType"⟩
          (⟨201, .obj (propertyRepr p)⟩, { db with properties := db.properties ++ [p] })

/-- `resources.py` PropertyResource.get. -/
def PropertyResource.get (db : DB) (property_id : Int) : Resp :=
  match findPropertyRow db.properties property_id with
  | none => mresp 404 "Property not found"
  | some p => ⟨200, .obj (propertyRepr p)⟩

/-- `resources.py` PropertyResource.put. -/
def PropertyResource.put (db : DB) (property_id : Int) (body : Option JObj) : Resp × DB :=
  match findPropertyRow db.properties property_id with
  | none => (mresp 404 "Property not found", db)
  | some p =>
    match jsonData body with
    | none => (mresp 400 "No input data provided", db)
    | some j =>
      let p1 : PropertyRow :=
        { p with
          name := if j.hasKey "name" then j.getD "name" else p.name,
          valueType := if j.hasKey "valueType" then j.getD "valueType" else p.valueType }
      (⟨200, .obj (propertyRepr p1)⟩,
       { db with properties := replacePropertyRow db.properties property_id p1 })

/-- `resources.py` PropertyResource.delete. -/
def PropertyResource.delete (db : DB) (property_id : Int) : Resp × DB :=
  match findPropertyRow db.properties property_id with
  | none => (mresp 404 "Property not found", db)
  | some _ =>
    if db.observations.any (fun o => jeqInt o.prop1 property_id) then
      (mresp 400 "Cannot delete property that is in use", db)
    else
      (⟨204, msgBody "Property deleted successfully"⟩,
       { db with properties := db.properties.filter (fun r => !(r.id == property_id)) })

/-- `resources.py` PlaceListResource.get. -/
def PlaceListResource.get (db : DB) : Resp :=
  ⟨200, .arr (db.places.map placeRepr)⟩

/-- `resources.py` PlaceListResource.post (never reads a client `id`:
the place id is always auto-generated). -/
def PlaceListResource.post (db : DB) (body : Option JObj) : Resp × DB :=
  match jsonData body with
  | none => (mresp 400 "No input data provided", db)
  | some j =>
    if j.hasKey "name" = false then (mresp 400 "Name is required", db)
    else if j.hasKey "lat" = false then (mresp 400 "Latitude is required", db)
    else if j.hasKey "lon" = false then (mresp 400 "Longitude is required", db)
    else
      let p : PlaceRow :=
        ⟨nextId (db.places.map (·.id)), j.getD "name", j.getD "lat", j.getD "lon",
         j.getD "alt", j.getD "timezone"⟩
      (⟨201, .obj (placeRepr p)⟩, { db with places := db.places ++ [p] })

/-- `resources.py` PlaceResource.get. -/
def PlaceResource.get (db : DB) (place_id : Int) : Resp :=
  match findPlaceRow db.places place_id with
  | none => mresp 404 "Place not found"
  | some p => ⟨200, .obj (placeRepr p)⟩

/-- `resources.py` PlaceResource.put. -/
def PlaceResource.put (db : DB) (place_id : Int) (body : Option JObj) : Resp × DB :=
  match findPlaceRow db.places place_id with
  | none => (mresp 404 "Place not found", db)
  | some p =>
    match jsonData body with
    | none => (mresp 400 "No input data provided", db)
    | some j =>
      let p1 : PlaceRow :=
        { p with
          name := if j.hasKey "name" then j.getD "name" else p.name,
          lat := if j.hasKey "lat" then j.getD "lat" else p.lat,
          lon := if j.hasKey "lon" then j.getD "lon" else p.lon,
          alt := if j.hasKey "alt" then j.getD "alt" else p.alt,
          timezone := if j.hasKey "timezone" then j.getD "timezone" else p.timezone }
      (⟨200, .obj (placeRepr p1)⟩,
       { db with places := replacePlaceRow db.places place_id p1 })

/-- `resources.py` PlaceResource.delete. -/
def PlaceResource.delete (db : DB) (place_id : Int) : Resp × DB :=
  match findPlaceRow db.places place_id with
  | none => (mresp 404 "Place not found", db)
  | some _ =>
    if db.observations.any (fun o => jeqInt o.place place_id) then
      (mresp 400 "Cannot delete place that is in use", db)
    else
      (⟨204, msgBody "Place deleted successfully"⟩,
       { db with places := db.places.filter (fun r => !(r.id == place_id)) })

/-- `resources.py` InstrumentListResource.get. -/
def InstrumentListResource.get (db : DB) : Resp :=
  ⟨200, .arr (db.instruments.map instrumentRepr)⟩

/-- `resources.py` InstrumentListResource.post. -/
def InstrumentListResource.post (db : DB) (body : Option JObj) : Resp × DB :=
  match jsonData body with
  | none => (mresp 400 "No input data provided", db)
  | some j =>
    if j.hasKey "name" = false then (mresp 400 "Name is required", db)
    else
      match chosenId j (db.instruments.map (·.id)) with
      | none => (mresp 500 "Internal Server Error", db)
      | some i =>
        if (findInstrumentRow db.instruments i).isSome then (mresp 500 "Internal Server Error", db)
        else
          let x : InstrumentRow := ⟨i, j.getD "name", j.getD "aperture", j.getD "power"⟩
          (⟨201, .obj (instrumentRepr x)⟩, { db with instruments := db.instruments ++ [x] })

/-- `resources.py` InstrumentResource.get. -/
def InstrumentResource.get (db : DB) (instrument_id : Int) : Resp :=
  match findInstrumentRow db.instruments instrument_id with
  | none => mresp 404 "Instrument not found"
  | some x => ⟨200, .obj (instrumentRepr x)⟩

/-- `resources.py` InstrumentResource.put. -/
def InstrumentResource.put (db : DB) (instrument_id : Int) (body : Option JObj) : Resp × DB :=
  match findInstrumentRow db.instruments instrument_id with
  | none => (mresp 404 "Instrument not found", db)
  | some x =>
    match jsonData body with
    | none => (mresp 400 "No input data provided", db)
    | some j =>
      let x1 : InstrumentRow :=
        { x with
          name := if j.hasKey "name" then j.getD "name" else x.name,
          aperture := if j.hasKey "aperture" then j.getD "aperture" else x.aperture,
          power := if j.hasKey "power" then j.getD "power" else x.power }
      (⟨200, .obj (instrumentRepr x1)⟩,
       { db with instruments := replaceInstrumentRow db.instruments instrument_id x1 })

/-- `resources.py` InstrumentResource.delete. -/
def InstrumentResource.delete (db : DB) (instrument_id : Int) : Resp × DB :=
  match findInstrumentRow db.instruments instrument_id with
  | none => (mresp 404 "Instrument not found", db)
  | some _ =>
    if db.observations.any (fun o => jeqInt o.instrument instrument_id) then
      (mresp 400 "Cannot delete instrument that is in use", db)
    else
      (⟨204, msgBody "Instrument deleted successfully"⟩,
       { db with instruments := db.instruments.filter (fun r => !(r.id == instrument_id)) })

/-- `resources.py` ObjectListResource.get. -/
def ObjectListResource.get (db : DB) : Resp :=
  ⟨200, .arr (db.objects.map objectRepr)⟩

/-- `resources.py` ObjectListResource.post. -/
def ObjectListResource.post (db : DB) (body : Option JObj) : Resp × DB :=
  match jsonData body with
  | none => (mresp 400 "No input data provided", db)
  | some j =>
    if j.hasKey "name" = false then (mresp 400 "Name is required", db)
    else if j.hasKey "type" = false then (mresp 400 "Type is required", db)
    else if (typeGetJ db.types (j.getD "type")).isNone then (mresp 400 "Type not found", db)
    else
      match chosenId j (db.objects.map (·.id)) with
      | none => (mresp 500 "Internal Server Error", db)
      | some i =>
        if (findObjectRow db.objects i).isSome then (mresp 500 "Internal Server Error", db)
        else
          let o : ObjectRow := ⟨i, j.getD "name", j.getD "desination", j.getD "type", j.getD "props"⟩
          (⟨201, .obj (objectRepr o)⟩, { db with objects := db.objects ++ [o] })

/-- `resources.py` ObjectResource.get. -/
def ObjectResource.get (db : DB) (object_id : Int) : Resp :=
  match findObjectRow db.objects object_id with
  | none => mresp 404 "Object not found"
  | some o => ⟨200, .obj (objectRepr o)⟩

/-- `resources.py` ObjectResource.put. -/
def ObjectResource.put (db : DB) (object_id : Int) (body : Option JObj) : Resp × DB :=
  match findObjectRow db.objects object_id with
  | none => (mresp 404 "Object not found", db)
  | some o =>
    match jsonData body with
    | none => (mresp 400 "No input data provided", db)
    | some j =>
      if j.hasKey "type" && (typeGetJ db.types (j.getD "type")).isNone then
        (mresp 400 "Type not found", db)
      else
        let o1 : ObjectRow :=
          { o with
            type := if j.hasKey "type" then j.getD "type" else o.type,
            name := if j.hasKey "name" then j.getD "name" else o.name,
            desination := if j.hasKey "desination" then j.getD "desination" else o.desination,
            props := if j.hasKey "props" then j.getD "props" else o.props }
        (⟨200, .obj (objectRepr o1)⟩,
         { db with objects := replaceObjectRow db.objects object_id o1 })

/-- `resources.py` ObjectResource.delete. -/
def ObjectResource.delete (db : DB) (object_id : Int) : Resp × DB :=
  match findObjectRow db.objects object_id with
  | none => (mresp 404 "Object not found", db)
  | some _ =>
    if db.observations.any (fun o => jeqInt o.object object_id) then
      (mresp 400 "Cannot delete object that is in use", db)
    else
      (⟨204, msgBody "Object deleted successfully"⟩,
       { db with objects := db.objects.filter (fun r => !(r.id == object_id)) })

/-- `resources.py` ObservationListResource.get. -/
def ObservationListResource.get (db : DB) : Resp :=
  ⟨200, .arr (db.observations.map observationRepr)⟩

/-- `resources.py` ObservationListResource.post.  The final `prop1`
guard models the MySQL foreign-key constraint at commit: a non-null
`prop1` that resolves to no Property (possible exactly when the value is
falsy, since the handler validates only truthy values) aborts the insert
with an IntegrityError, surfaced as a 500. -/
def ObservationListResource.post (db : DB) (body : Option JObj) : Resp × DB :=
  match jsonData body with
  | none => (mresp 400 "No input data provided", db)
  | some j =>
    if j.hasKey "object" = false then (mresp 400 "Object is required", db)
    else if j.hasKey "place" = false then (mresp 400 "Place is required", db)
    else if j.hasKey "instrument" = false then (mresp 400 "Instrument is required", db)
    else if j.hasKey "datetime" = false then (mresp 400 "Datetime is required", db)
    else if j.hasKey "observation" = false then (mresp 400 "Observation text is required", db)
    else if (objectGetJ db.objects (j.getD "object")).isNone then
      (mresp 400 "Object not found", db)
    else if (placeGetJ db.places (j.getD "place")).isNone then
      (mresp 400 "Place not found", db)
    else if (instrumentGetJ db.instruments (j.getD "instrument")).isNone then
      (mresp 400 "Instrument not found", db)
    else if (j.getD "prop1").truthy && (propertyGetJ db.properties (j.getD "prop1")).isNone then
      (mresp 400 "Property not found", db)
    else
      match j.getD "datetime" with
      | .str s =>
        match fromisoformat (pyReplaceZ s) with
        | none =>
          (mresp 400 "Invalid datetime format. Use ISO format (YYYY-MM-DDTHH:MM:SS)", db)
        | some dt =>
          if !(j.getD "prop1" == .null) && (propertyGetJ db.properties (j.getD "prop1")).isNone then
            (mresp 500 "Internal Server Error", db)
          else
            let o : ObservationRow :=
              ⟨nextId (db.observations.map (·.id)), j.getD "object", j.getD "place",
               j.getD "instrument", some dt, j.getD "observation", j.getD "prop1",
               j.getD "prop1value"⟩
            (⟨201, .obj (observationRepr o)⟩,
             { db with observations := db.observations ++ [o] })
      | _ => (mresp 400 "Invalid datetime format. Use ISO format (YYYY-MM-DDTHH:MM:SS)", db)

/-- `resources.py` ObservationResource.get. -/
def ObservationResource.get (db : DB) (observation_id : Int) : Resp :=
  match findObservationRow db.observations observation_id with
  | none => mresp 404 "Observation not found"
  | some o => ⟨200, .obj (observationRepr o)⟩

/-- `resources.py` ObservationResource.put.  The source mutates the
fetched row field by field and only then commits; paths that return an
error never reach the commit, so their session changes are rolled back
at request teardown and the returned state is the original. -/
def ObservationResource.put (db : DB) (observation_id : Int) (body : Option JObj) : Resp × DB :=
  match findObservationRow db.observations observation_id with
  | none => (mresp 404 "Observation not found", db)
  | some o =>
    match jsonData body with
    | none => (mresp 400 "No input data provided", db)
    | some j =>
      if j.hasKey "object" && (objectGetJ db.objects (j.getD "object")).isNone then
        (mresp 400 "Object not found", db)
      else if j.hasKey "place" && (placeGetJ db.places (j.getD "place")).isNone then
        (mresp 400 "Place not found", db)
      else if j.hasKey "instrument" && (instrumentGetJ db.instruments (j.getD "instrument")).isNone then
        (mresp 400 "Instrument not found", db)
      else if (j.hasKey "prop1" && (j.getD "prop1").truthy) &&
              (propertyGetJ db.properties (j.getD "prop1")).isNone then
        (mresp 400 "Property not found", db)
      else
        match (if j.hasKey "datetime" then
                 match j.getD "datetime" with
                 | .str s => (fromisoformat (pyReplaceZ s)).map some
                 | _ => none
               else some o.datetime : Option (Option PyDateTime)) with
        | none =>
          (mresp 400 "Invalid datetime format. Use ISO format (YYYY-MM-DDTHH:MM:SS)", db)
        | some dtNew =>
          let o1 : ObservationRow :=
            { o with
              object := if j.hasKey "object" then j.getD "object" else o.object,
              place := if j.hasKey "place" then j.getD "place" else o.place,
              instrument := if j.hasKey "instrument" then j.getD "instrument" else o.instrument,
              prop1 := if j.hasKey "prop1" && (j.getD "prop1").truthy then j.getD "prop1" else o.prop1,
              datetime := if j.hasKey "datetime" then dtNew else o.datetime,
              observation := if j.hasKey "observation" then j.getD "observation" else o.observation,
              prop1value := if j.hasKey "prop1value" then j.getD "prop1value" else o.prop1value }
          (⟨200, .obj (observationRepr o1)⟩,
           { db with observations := replaceObservationRow db.observations observation_id o1 })

/-- `resources.py` ObservationResource.delete
(no dependent check: nothing references an Observation). -/
def ObservationResource.delete (db : DB) (observation_id : Int) : Resp × DB :=
  match findObservationRow db.observations observation_id with
  | none => (mresp 404 "Observation not found", db)
  | some _ =>
    (⟨204, msgBody "Observation deleted successfully"⟩,
     { db with observations := db.observations.filter (fun r => !(r.id == observation_id)) })

/-- `resources.py` ObjectObservationsResource.get
(validates parent existence first). -/
def ObjectObservationsResource.get (db : DB) (object_id : Int) : Resp :=
  match findObjectRow db.objects object_id with
  | none => mresp 404 "Object not found"
  | some _ =>
    ⟨200, .arr ((db.observations.filter (fun o => jeqInt o.object object_id)).map observationRepr)⟩

/-- `resources.py` PlaceObservationsResource.get. -/
def PlaceObservationsResource.get (db : DB) (place_id : Int) : Resp :=
  match findPlaceRow db.places place_id with
  | none => mresp 404 "Place not found"
  | some _ =>
    ⟨200, .arr ((db.observations.filter (fun o => jeqInt o.place place_id)).map observationRepr)⟩

/-- `resources.py` InstrumentObservationsResource.get. -/
def InstrumentObservationsResource.get (db : DB) (instrument_id : Int) : Resp :=
  match findInstrumentRow db.instruments instrument_id with
  | none => mresp 404 "Instrument not found"
  | some _ =>
    ⟨200, .arr ((db.observations.filter (fun o => jeqInt o.instrument instrument_id)).map observationRepr)⟩

end Resources

/-- Declared marshmallow field types used by `astronomy_api.py`. -/
inductive FTy where
  | fstr
  | fint
  | fdt
  deriving DecidableEq

/-- One declared schema field. -/
structure FieldSpec where
  fname : String
  fty : FTy
  required : Bool
  deriving DecidableEq

/-- marshmallow deserialization of one value: `String` requires a JSON
string; `Integer` accepts an integer or an integer-valued string and
rejects booleans and null; `DateTime` accepts ISO-8601 text (modelled
with the same parser as the handlers, with `Z` accepted as `+00:00`). -/
def valOk : FTy → JScalar → Bool
  | .fstr, .str _ => true
  | .fstr, _ => false
  | .fint, .int _ => true
  | .fint, .str s => (parseIntPy s).isSome
  | .fint, _ => false
  | .fdt, .str s => (fromisoformat (pyReplaceZ s)).isSome
  | .fdt, _ => false

/-- marshmallow `Schema.load` as a boolean check: every payload key must
be a declared loadable field (the dump-only `id` and unknown keys raise),
every required field must be present, and every present field's value
must deserialize. -/
def loadCheck (schema : List FieldSpec) (j : JObj) : Bool :=
  j.all (fun p => schema.any (fun f => f.fname == p.1)) &&
  schema.all (fun f =>
    if j.hasKey f.fname then valOk f.fty (j.getD f.fname) else !f.required)

/-- `TypeSchema` loadable fields. -/
def typeSchemaFields : List FieldSpec :=
  [⟨"name", .fstr, true⟩]

/-- `PropertySchema` loadable fields. -/
def propertySchemaFields : List FieldSpec :=
  [⟨"name", .fstr, true⟩, ⟨"valueType", .fstr, true⟩]

/-- `PlaceSchema` loadable fields. -/
def placeSchemaFields : List FieldSpec :=
  [⟨"name", .fstr, true⟩, ⟨"lat", .fstr, true⟩, ⟨"lon", .fstr, true⟩,
   ⟨"alt", .fstr, false⟩, ⟨"timezone", .fstr, false⟩]

/-- `InstrumentSchema` loadable fields. -/
def instrumentSchemaFields : List FieldSpec :=
  [⟨"name", .fstr, true⟩, ⟨"aperture", .fstr, false⟩, ⟨"power", .fstr, false⟩]

/-- `ObjectSchema` loadable fields. -/
def objectSchemaFields : List FieldSpec :=
  [⟨"name", .fstr, true⟩, ⟨"desination", .fstr, false⟩,
   ⟨"type", .fint, true⟩, ⟨"props", .fstr, false⟩]

/-- `ObservationSchema` loadable fields. -/
def observationSchemaFields : List FieldSpec :=
  [⟨"object", .fint, true⟩, ⟨"place", .fint, true⟩, ⟨"instrument", .fint, true⟩,
   ⟨"datetime", .fdt, true⟩, ⟨"observation", .fstr, true⟩,
   ⟨"prop1", .fint, false⟩, ⟨"prop1value", .fstr, false⟩]

/-- The 422 response of the `astronomy_api.py` handlers
(`{'message': str(e)}` with the marshmallow error text, modelled by a
fixed message string). -/
def valFailResp : Resp :=
  mresp 422 "Marshmallow schema validation failed"

/-- The JSON 404 flask-restful produces when `get_or_404` raises. -/
def notFound404 : Resp :=
  mresp 404 "Not Found"

/-- The JSON 500 flask-restful produces for an unhandled exception,
such as a MySQL IntegrityError. -/
def integrityError500 : Resp :=
  mresp 500 "Internal Server Error"

namespace ApiVariant

/-- `astronomy_api.py` TypeListResource.get. -/
def TypeListResource.get (db : DB) : Resp :=
  ⟨200, .arr (db.types.map typeRepr)⟩

/-- `astronomy_api.py` TypeListResource.post (no client id is read). -/
def TypeListResource.post (db : DB) (body : Option JObj) : Resp × DB :=
  match jsonData body with
  | none => (mresp 400 "No input data provided", db)
  | some j =>
    if loadCheck typeSchemaFields j = false then (valFailResp, db)
    else
      let t : TypeRow := ⟨nextId (db.types.map (·.id)), j.getD "name"⟩
      (⟨201, .obj (typeRepr t)⟩, { db with types := db.types ++ [t] })

/-- `astronomy_api.py` TypeResource.get. -/
def TypeResource.get (db : DB) (type_id : Int) : Resp :=
  match findTypeRow db.types type_id with
  | none => notFound404
  | some t => ⟨200, .obj (typeRepr t)⟩

/-- `astronomy_api.py` TypeResource.put. -/
def TypeResource.put (db : DB) (type_id : Int) (body : Option JObj) : Resp × DB :=
  match findTypeRow db.types type_id with
  | none => (notFound404, db)
  | some t =>
    match jsonData body with
    | none => (mresp 400 "No input data provided", db)
    | some j =>
      if loadCheck typeSchemaFields j = false then (valFailResp, db)
      else
        let t1 : TypeRow := { t with name := j.getD "name" }
        (⟨200, .obj (typeRepr t1)⟩, { db with types := replaceTypeRow db.types type_id t1 })

/-- `astronomy_api.py` TypeResource.delete: no dependent check in the
handler; deleting a Type referenced by an Object violates the MySQL
foreign-key constraint at commit, surfaced as a 500. -/
def TypeResource.delete (db : DB) (type_id : Int) : Resp × DB :=
  match findTypeRow db.types type_id with
  | none => (notFound404, db)
  | some _ =>
    if db.objects.any (fun o => jeqInt o.type type_id) then (integrityError500, db)
    else
      (⟨204, .text ""⟩, { db with types := db.types.filter (fun r => !(r.id == type_id)) })

/-- `astronomy_api.py` PropertyListResource.get. -/
def PropertyListResource.get (db : DB) : Resp :=
  ⟨200, .arr (db.properties.map propertyRepr)⟩

/-- `astronomy_api.py` PropertyListResource.post (`id=json_data.get('id')`
appears in the source but a payload with `id` never passes `load`). -/
def PropertyListResource.post (db : DB) (body : Option JObj) : Resp × DB :=
  match jsonData body with
  | none => (mresp 400 "No input data provided", db)
  | some j =>
    if loadCheck propertySchemaFields j = false then (valFailResp, db)
    else
      match chosenId j (db.properties.map (·.id)) with
      | none => (integrityError500, db)
      | some i =>
        if (findPropertyRow db.properties i).isSome then (integrityError500, db)
        else
          let p : PropertyRow := ⟨i, j.getD "name", j.getD "valueType"⟩
          (⟨201, .obj (propertyRepr p)⟩, { db with properties := db.properties ++ [p] })

/-- `astronomy_api.py` PropertyResource.get. -/
def PropertyResource.get (db : DB) (property_id : Int) : Resp :=
  match findPropertyRow db.properties property_id with
  | none => notFound404
  | some p => ⟨200, .obj (propertyRepr p)⟩

/-- `astronomy_api.py` PropertyResource.put (sets both fields
unconditionally; both are schema-required). -/
def PropertyResource.put (db : DB) (property_id : Int) (body : Option JObj) : Resp × DB :=
  match findPropertyRow db.properties property_id with
  | none => (notFound404, db)
  | some p =>
    match jsonData body with
    | none => (mresp 400 "No input data provided", db)
    | some j =>
      if loadCheck propertySchemaFields j = false then (valFailResp, db)
      else
        let p1 : PropertyRow := { p with name := j.getD "name", valueType := j.getD "valueType" }
        (⟨200, .obj (propertyRepr p1)⟩,
         { db with properties := replacePropertyRow db.properties property_id p1 })

/-- `astronomy_api.py` PropertyResource.delete. -/
def PropertyResource.delete (db : DB) (property_id : Int) : Resp × DB :=
  match findPropertyRow db.properties property_id with
  | none => (notFound404, db)
  | some _ =>
    if db.observations.any (fun o => jeqInt o.prop1 property_id) then (integrityError500, db)
    else
      (⟨204, .text ""⟩,
       { db with properties := db.properties.filter (fun r => !(r.id == property_id)) })

/-- `astronomy_api.py` PlaceListResource.get. -/
def PlaceListResource.get (db : DB) : Resp :=
  ⟨200, .arr (db.places.map placeRepr)⟩

/-- `astronomy_api.py` PlaceListResource.post. -/
def PlaceListResource.post (db : DB) (body : Option JObj) : Resp × DB :=
  match jsonData body with
  | none => (mresp 400 "No input data provided", db)
  | some j =>
    if loadCheck placeSchemaFields j = false then (valFailResp, db)
    else
      let p : PlaceRow :=
        ⟨nextId (db.places.map (·.id)), j.getD "name", j.getD "lat", j.getD "lon",
         j.getD "alt", j.getD "timezone"⟩
      (⟨201, .obj (placeRepr p)⟩, { db with places := db.places ++ [p] })

/-- `astronomy_api.py` PlaceResource.get. -/
def PlaceResource.get (db : DB) (place_id : Int) : Resp :=
  match findPlaceRow db.places place_id with
  | none => notFound404
  | some p => ⟨200, .obj (placeRepr p)⟩

/-- `astronomy_api.py` PlaceResource.put (name/lat/lon set
unconditionally, alt/timezone only when the key is present). -/
def PlaceResource.put (db : DB) (place_id : Int) (body : Option JObj) : Resp × DB :=
  match findPlaceRow db.places place_id with
  | none => (notFound404, db)
  | some p =>
    match jsonData body with
    | none => (mresp 400 "No input data provided", db)
    | some j =>
      if loadCheck placeSchemaFields j = false then (valFailResp, db)
      else
        let p1 : PlaceRow :=
          { p with
            name := j.getD "name", lat := j.getD "lat", lon := j.getD "lon",
            alt := if j.hasKey "alt" then j.getD "alt" else p.alt,
            timezone := if j.hasKey "timezone" then j.getD "timezone" else p.timezone }
        (⟨200, .obj (placeRepr p1)⟩,
         { db with places := replacePlaceRow db.places place_id p1 })

/-- `astronomy_api.py` PlaceResource.delete. -/
def PlaceResource.delete (db : DB) (place_id : Int) : Resp × DB :=
  match findPlaceRow db.places place_id with
  | none => (notFound404, db)
  | some _ =>
    if db.observations.any (fun o => jeqInt o.place place_id) then (integrityError500, db)
    else
      (⟨204, .text ""⟩,
       { db with places := db.places.filter (fun r => !(r.id == place_id)) })

/-- `astronomy_api.py` InstrumentListResource.get. -/
def InstrumentListResource.get (db : DB) : Resp :=
  ⟨200, .arr (db.instruments.map instrumentRepr)⟩

/-- `astronomy_api.py` InstrumentListResource.post. -/
def InstrumentListResource.post (db : DB) (body : Option JObj) : Resp × DB :=
  match jsonData body with
  | none => (mresp 400 "No input data provided", db)
  | some j =>
    if loadCheck instrumentSchemaFields j = false then (valFailResp, db)
    else
      match chosenId j (db.instruments.map (·.id)) with
      | none => (integrityError500, db)
      | some i =>
        if (findInstrumentRow db.instruments i).isSome then (integrityError500, db)
        else
          let x : InstrumentRow := ⟨i, j.getD "name", j.getD "aperture", j.getD "power"⟩
          (⟨201, .obj (instrumentRepr x)⟩, { db with instruments := db.instruments ++ [x] })

/-- `astronomy_api.py` InstrumentResource.get. -/
def InstrumentResource.get (db : DB) (instrument_id : Int) : Resp :=
  match findInstrumentRow db.instruments instrument_id with
  | none => notFound404
  | some x => ⟨200, .obj (instrumentRepr x)⟩

/-- `astronomy_api.py` InstrumentResource.put. -/
def InstrumentResource.put (db : DB) (instrument_id : Int) (body : Option JObj) : Resp × DB :=
  match findInstrumentRow db.instruments instrument_id with
  | none => (notFound404, db)
  | some x =>
    match jsonData body with
    | none => (mresp 400 "No input data provided", db)
    | some j =>
      if loadCheck instrumentSchemaFields j = false then (valFailResp, db)
      else
        let x1 : InstrumentRow :=
          { x with
            name := j.getD "name",
            aperture := if j.hasKey "aperture" then j.getD "aperture" else x.aperture,
            power := if j.hasKey "power" then j.getD "power" else x.power }
        (⟨200, .obj (instrumentRepr x1)⟩,
         { db with instruments := replaceInstrumentRow db.instruments instrument_id x1 })

/-- `astronomy_api.py` InstrumentResource.delete. -/
def InstrumentResource.delete (db : DB) (instrument_id : Int) : Resp × DB :=
  match findInstrumentRow db.instruments instrument_id with
  | none => (notFound404, db)
  | some _ =>
    if db.observations.any (fun o => jeqInt o.instrument instrument_id) then
      (integrityError500, db)
    else
      (⟨204, .text ""⟩,
       { db with instruments := db.instruments.filter (fun r => !(r.id == instrument_id)) })

/-- `astronomy_api.py` ObjectListResource.get. -/
def ObjectListResource.get (db : DB) : Resp :=
  ⟨200, .arr (db.objects.map objectRepr)⟩

/-- `astronomy_api.py` ObjectListResource.post. -/
def ObjectListResource.post (db : DB) (body : Option JObj) : Resp × DB :=
  match jsonData body with
  | none => (mresp 400 "No input data provided", db)
  | some j =>
    if loadCheck objectSchemaFields j = false then (valFailResp, db)
    else if (typeGetJ db.types (j.getD "type")).isNone then (mresp 400 "Invalid type ID", db)
    else
      match chosenId j (db.objects.map (·.id)) with
      | none => (integrityError500, db)
      | some i =>
        if (findObjectRow db.objects i).isSome then (integrityError500, db)
        else
          let o : ObjectRow := ⟨i, j.getD "name", j.getD "desination", j.getD "type", j.getD "props"⟩
          (⟨201, .obj (objectRepr o)⟩, { db with objects := db.objects ++ [o] })

/-- `astronomy_api.py` ObjectResource.get. -/
def ObjectResource.get (db : DB) (object_id : Int) : Resp :=
  match findObjectRow db.objects object_id with
  | none => notFound404
  | some o => ⟨200, .obj (objectRepr o)⟩

/-- `astronomy_api.py` ObjectResource.put. -/
def ObjectResource.put (db : DB) (object_id : Int) (body : Option JObj) : Resp × DB :=
  match findObjectRow db.objects object_id with
  | none => (notFound404, db)
  | some o =>
    match jsonData body with
    | none => (mresp 400 "No input data provided", db)
    | some j =>
      if loadCheck objectSchemaFields j = false then (valFailResp, db)
      else if j.hasKey "type" && (typeGetJ db.types (j.getD "type")).isNone then
        (mresp 400 "Invalid type ID", db)
      else
        let o1 : ObjectRow :=
          { o with
            type := if j.hasKey "type" then j.getD "type" else o.type,
            name := if j.hasKey "name" then j.getD "name" else o.name,
            desination := if j.hasKey "desination" then j.getD "desination" else o.desination,
            props := if j.hasKey "props" then j.getD "props" else o.props }
        (⟨200, .obj (objectRepr o1)⟩,
         { db with objects := replaceObjectRow db.objects object_id o1 })

/-- `astronomy_api.py` ObjectResource.delete. -/
def ObjectResource.delete (db : DB) (object_id : Int) : Resp × DB :=
  match findObjectRow db.objects object_id with
  | none => (notFound404, db)
  | some _ =>
    if db.observations.any (fun o => jeqInt o.object object_id) then (integrityError500, db)
    else
      (⟨204, .text ""⟩,
       { db with objects := db.objects.filter (fun r => !(r.id == object_id)) })

/-- `astronomy_api.py` ObservationListResource.get. -/
def ObservationListResource.get (db : DB) : Resp :=
  ⟨200, .arr (db.observations.map observationRepr)⟩

/-- `astronomy_api.py` ObservationListResource.post (same commit-time
`prop1` foreign-key guard as the `resources.py` embedding). -/
def ObservationListResource.post (db : DB) (body : Option JObj) : Resp × DB :=
  match jsonData body with
  | none => (mresp 400 "No input data provided", db)
  | some j =>
    if loadCheck observationSchemaFields j = false then (valFailResp, db)
    else if (objectGetJ db.objects (j.getD "object")).isNone then
      (mresp 400 "Invalid object ID", db)
    else if (placeGetJ db.places (j.getD "place")).isNone then
      (mresp 400 "Invalid place ID", db)
    else if (instrumentGetJ db.instruments (j.getD "instrument")).isNone then
      (mresp 400 "Invalid instrument ID", db)
    else if (j.getD "prop1").truthy && (propertyGetJ db.properties (j.getD "prop1")).isNone then
      (mresp 400 "Invalid property ID", db)
    else
      match j.getD "datetime" with
      | .str s =>
        match fromisoformat (pyReplaceZ s) with
        | none =>
          (mresp 400 "Invalid datetime format. Use ISO format (YYYY-MM-DDTHH:MM:SS)", db)
        | some dt =>
          if !(j.getD "prop1" == .null) && (propertyGetJ db.properties (j.getD "prop1")).isNone then
            (integrityError500, db)
          else
            let o : ObservationRow :=
              ⟨nextId (db.observations.map (·.id)), j.getD "object", j.getD "place",
               j.getD "instrument", some dt, j.getD "observation", j.getD "prop1",
               j.getD "prop1value"⟩
            (⟨201, .obj (observationRepr o)⟩,
             { db with observations := db.observations ++ [o] })
      | _ => (mresp 400 "Invalid datetime format. Use ISO format (YYYY-MM-DDTHH:MM:SS)", db)

/-- `astronomy_api.py` ObservationResource.get. -/
def ObservationResource.get (db : DB) (observation_id : Int) : Resp :=
  match findObservationRow db.observations observation_id with
  | none => notFound404
  | some o => ⟨200, .obj (observationRepr o)⟩

/-- `astronomy_api.py` ObservationResource.put. -/
def ObservationResource.put (db : DB) (observation_id : Int) (body : Option JObj) : Resp × DB :=
  match findObservationRow db.observations observation_id with
  | none => (notFound404, db)
  | some o =>
    match jsonData body with
    | none => (mresp 400 "No input data provided", db)
    | some j =>
      if loadCheck observationSchemaFields j = false then (valFailResp, db)
      else if j.hasKey "object" && (objectGetJ db.objects (j.getD "object")).isNone then
        (mresp 400 "Invalid object ID", db)
      else if j.hasKey "place" && (placeGetJ db.places (j.getD "place")).isNone then
        (mresp 400 "Invalid place ID", db)
      else if j.hasKey "instrument" && (instrumentGetJ db.instruments (j.getD "instrument")).isNone then
        (mresp 400 "Invalid instrument ID", db)
      else if (j.hasKey "prop1" && (j.getD "prop1").truthy) &&
              (propertyGetJ db.properties (j.getD "prop1")).isNone then
        (mresp 400 "Invalid property ID", db)
      else
        match (if j.hasKey "datetime" then
                 match j.getD "datetime" with
                 | .str s => (fromisoformat (pyReplaceZ s)).map some
                 | _ => none
               else some o.datetime : Option (Option PyDateTime)) with
        | none =>
          (mresp 400 "Invalid datetime format. Use ISO format (YYYY-MM-DDTHH:MM:SS)", db)
        | some dtNew =>
          let o1 : ObservationRow :=
            { o with
              object := if j.hasKey "object" then j.getD "object" else o.object,
              place := if j.hasKey "place" then j.getD "place" else o.place,
              instrument := if j.hasKey "instrument" then j.getD "instrument" else o.instrument,
              prop1 := if j.hasKey "prop1" && (j.getD "prop1").truthy then j.getD "prop1" else o.prop1,
              datetime := if j.hasKey "datetime" then dtNew else o.datetime,
              observation := if j.hasKey "observation" then j.getD "observation" else o.observation,
              prop1value := if j.hasKey "prop1value" then j.getD "prop1value" else o.prop1value }
          (⟨200, .obj (observationRepr o1)⟩,
           { db with observations := replaceObservationRow db.observations observation_id o1 })

/-- `astronomy_api.py` ObservationResource.delete. -/
def ObservationResource.delete (db : DB) (observation_id : Int) : Resp × DB :=
  match findObservationRow db.observations observation_id with
  | none => (notFound404, db)
  | some _ =>
    (⟨204, .text ""⟩,
     { db with observations := db.observations.filter (fun r => !(r.id == observation_id)) })

/-- `astronomy_api.py` ObjectObservationsResource.get: no
parent-existence check; a missing parent yields an empty 200 list. -/
def ObjectObservationsResource.get (db : DB) (object_id : Int) : Resp :=
  ⟨200, .arr ((db.observations.filter (fun o => jeqInt o.object object_id)).map observationRepr)⟩

/-- `astronomy_api.py` PlaceObservationsResource.get. -/
def PlaceObservationsResource.get (db : DB) (place_id : Int) : Resp :=
  ⟨200, .arr ((db.observations.filter (fun o => jeqInt o.place place_id)).map observationRepr)⟩

/-- `astronomy_api.py` InstrumentObservationsResource.get. -/
def InstrumentObservationsResource.get (db : DB) (instrument_id : Int) : Resp :=
  ⟨200, .arr ((db.observations.filter (fun o => jeqInt o.instrument instrument_id)).map observationRepr)⟩

end ApiVariant

/-- The query-string arguments of `/api/observations/search`
(`request.args.get` yields `None` for an absent parameter). -/
structure SearchArgs where
  start_date : Option String
  end_date : Option String
  object_id : Option String
  place_id : Option String
  instrument_id : Option String
  deriving DecidableEq

/-- The `if start_date:` style guard: an absent or empty parameter is
skipped. -/
def argPresent : Option String → Bool
  | none => false
  | some s => s ≠ ""

/-- The `start_date` step of the search handler: parse then
`filter(Observation.datetime >= start_datetime)` (a NULL datetime
matches no SQL comparison). -/
def startDateStep (s? : Option String) (rows : List ObservationRow) :
    Except Resp (List ObservationRow) :=
  match s? with
  | none => .ok rows
  | some s =>
    if s = "" then .ok rows
    else
      match fromisoformat (pyReplaceZ s) with
      | some d =>
        .ok (rows.filter (fun o => match o.datetime with
              | some dt => decide (d.key ≤ dt.key)
              | none => false))
      | none => .error (mresp 400 "Invalid start_date format. Use ISO format (YYYY-MM-DDTHH:MM:SS)")

/-- The `end_date` step: `filter(Observation.datetime <= end_datetime)`. -/
def endDateStep (s? : Option String) (rows : List ObservationRow) :
    Except Resp (List ObservationRow) :=
  match s? with
  | none => .ok rows
  | some s =>
    if s = "" then .ok rows
    else
      match fromisoformat (pyReplaceZ s) with
      | some d =>
        .ok (rows.filter (fun o => match o.datetime with
              | some dt => decide (dt.key ≤ d.key)
              | none => false))
      | none => .error (mresp 400 "Invalid end_date format. Use ISO format (YYYY-MM-DDTHH:MM:SS)")

/-- An integer id step of the search handler: `int(...)` then an
equality filter on the given foreign-key column. -/
def idStep (s? : Option String) (badMsg : String) (proj : ObservationRow → JScalar)
    (rows : List ObservationRow) : Except Resp (List ObservationRow) :=
  match s? with
  | none => .ok rows
  | some s =>
    if s = "" then .ok rows
    else
      match parseIntPy s with
      | some i => .ok (rows.filter (fun o => jeqInt (proj o) i))
      | none => .error (mresp 400 badMsg)

namespace Resources

/-- The sequential query building of
`resources.py` ObservationSearchResource.get. -/
def ObservationSearchResource.searchRows (db : DB) (a : SearchArgs) :
    Except Resp (List ObservationRow) := do
  let q1 ← startDateStep a.start_date db.observations
  let q2 ← endDateStep a.end_date q1
  let q3 ← idStep a.object_id "Invalid object_id format. Must be an integer" (·.object) q2
  let q4 ← idStep a.place_id "Invalid place_id format. Must be an integer" (·.place) q3
  let q5 ← idStep a.instrument_id "Invalid instrument_id format. Must be an integer" (·.instrument) q4
  pure q5

/-- `resources.py` ObservationSearchResource.get. -/
def ObservationSearchResource.get (db : DB) (a : SearchArgs) : Resp :=
  match ObservationSearchResource.searchRows db a with
  | .error r => r
  | .ok rows => ⟨200, .arr (rows.map observationRepr)⟩

end Resources

/-- One request to the API served by `server.py` (the `resources.py`
handlers), carrying its route parameters and body. -/
inductive ApiReq where
  | typesList
  | typesCreate (body : Option JObj)
  | typeShow (i : Int)
  | typeUpdate (i : Int) (body : Option JObj)
  | typeRemove (i : Int)
  | propertiesList
  | propertiesCreate (body : Option JObj)
  | propertyShow (i : Int)
  | propertyUpdate (i : Int) (body : Option JObj)
  | propertyRemove (i : Int)
  | placesList
  | placesCreate (body : Option JObj)
  | placeShow (i : Int)
  | placeUpdate (i : Int) (body : Option JObj)
  | placeRemove (i : Int)
  | instrumentsList
  | instrumentsCreate (body : Option JObj)
  | instrumentShow (i : Int)
  | instrumentUpdate (i : Int) (body : Option JObj)
  | instrumentRemove (i : Int)
  | objectsList
  | objectsCreate (body : Option JObj)
  | objectShow (i : Int)
  | objectUpdate (i : Int) (body : Option JObj)
  | objectRemove (i : Int)
  | observationsList
  | observationsCreate (body : Option JObj)
  | observationShow (i : Int)
  | observationUpdate (i : Int) (body : Option JObj)
  | observationRemove (i : Int)
  | objectObservations (i : Int)
  | placeObservations (i : Int)
  | instrumentObservations (i : Int)
  | observationSearch (a : SearchArgs)

/-- Dispatch of a request to the `resources.py` handlers (read-only
endpoints return the state unchanged). -/
def Resources.route (db : DB) : ApiReq → Resp × DB
  | .typesList => (Resources.TypeListResource.get db, db)
  | .typesCreate b => Resources.TypeListResource.post db b
  | .typeShow i => (Resources.TypeResource.get db i, db)
  | .typeUpdate i b => Resources.TypeResource.put db i b
  | .typeRemove i => Resources.TypeResource.delete db i
  | .propertiesList => (Resources.PropertyListResource.get db, db)
  | .propertiesCreate b => Resources.PropertyListResource.post db b
  | .propertyShow i => (Resources.PropertyResource.get db i, db)
  | .propertyUpdate i b => Resources.PropertyResource.put db i b
  | .propertyRemove i => Resources.PropertyResource.delete db i
  | .placesList => (Resources.PlaceListResource.get db, db)
  | .placesCreate b => Resources.PlaceListResource.post db b
  | .placeShow i => (Resources.PlaceResource.get db i, db)
  | .placeUpdate i b => Resources.PlaceResource.put db i b
  | .placeRemove i => Resources.PlaceResource.delete db i
  | .instrumentsList => (Resources.InstrumentListResource.get db, db)
  | .instrumentsCreate b => Resources.InstrumentListResource.post db b
  | .instrumentShow i => (Resources.InstrumentResource.get db i, db)
  | .instrumentUpdate i b => Resources.InstrumentResource.put db i b
  | .instrumentRemove i => Resources.InstrumentResource.delete db i
  | .objectsList => (Resources.ObjectListResource.get db, db)
  | .objectsCreate b => Resources.ObjectListResource.post db b
  | .objectShow i => (Resources.ObjectResource.get db i, db)
  | .objectUpdate i b => Resources.ObjectResource.put db i b
  | .objectRemove i => Resources.ObjectResource.delete db i
  | .observationsList => (Resources.ObservationListResource.get db, db)
  | .observationsCreate b => Resources.ObservationListResource.post db b
  | .observationShow i => (Resources.ObservationResource.get db i, db)
  | .observationUpdate i b => Resources.ObservationResource.put db i b
  | .observationRemove i => Resources.ObservationResource.delete db i
  | .objectObservations i => (Resources.ObjectObservationsResource.get db i, db)
  | .placeObservations i => (Resources.PlaceObservationsResource.get db i, db)
  | .instrumentObservations i => (Resources.InstrumentObservationsResource.get db i, db)
  | .observationSearch a => (Resources.ObservationSearchResource.get db a, db)

/-- One request to the standalone `astronomy_api.py` app (its search
endpoint, which performs no integer parsing, is not modelled; no claim
depends on it). -/
inductive ApiReqV where
  | typesList
  | typesCreate (body : Option JObj)
  | typeShow (i : Int)
  | typeUpdate (i : Int) (body : Option JObj)
  | typeRemove (i : Int)
  | propertiesList
  | propertiesCreate (body : Option JObj)
  | propertyShow (i : Int)
  | propertyUpdate (i : Int) (body : Option JObj)
  | propertyRemove (i : Int)
  | placesList
  | placesCreate (body : Option JObj)
  | placeShow (i : Int)
  | placeUpdate (i : Int) (body : Option JObj)
  | placeRemove (i : Int)
  | instrumentsList
  | instrumentsCreate (body : Option JObj)
  | instrumentShow (i : Int)
  | instrumentUpdate (i : Int) (body : Option JObj)
  | instrumentRemove (i : Int)
  | objectsList
  | objectsCreate (body : Option JObj)
  | objectShow (i : Int)
  | objectUpdate (i : Int) (body : Option JObj)
  | objectRemove (i : Int)
  | observationsList
  | observationsCreate (body : Option JObj)
  | observationShow (i : Int)
  | observationUpdate (i : Int) (body : Option JObj)
  | observationRemove (i : Int)
  | objectObservations (i : Int)
  | placeObservations (i : Int)
  | instrumentObservations (i : Int)

/-- Dispatch of a request to the `astronomy_api.py` handlers. -/
def ApiVariant.route (db : DB) : ApiReqV → Resp × DB
  | .typesList => (ApiVariant.TypeListResource.get db, db)
  | .typesCreate b => ApiVariant.TypeListResource.post db b
  | .typeShow i => (ApiVariant.TypeResource.get db i, db)
  | .typeUpdate i b => ApiVariant.TypeResource.put db i b
  | .typeRemove i => ApiVariant.TypeResource.delete db i
  | .propertiesList => (ApiVariant.PropertyListResource.get db, db)
  | .propertiesCreate b => ApiVariant.PropertyListResource.post db b
  | .propertyShow i => (ApiVariant.PropertyResource.get db i, db)
  | .propertyUpdate i b => ApiVariant.PropertyResource.put db i b
  | .propertyRemove i => ApiVariant.PropertyResource.delete db i
  | .placesList => (ApiVariant.PlaceListResource.get db, db)
  | .placesCreate b => ApiVariant.PlaceListResource.post db b
  | .placeShow i => (ApiVariant.PlaceResource.get db i, db)
  | .placeUpdate i b => ApiVariant.PlaceResource.put db i b
  | .placeRemove i => ApiVariant.PlaceResource.delete db i
  | .instrumentsList => (ApiVariant.InstrumentListResource.get db, db)
  | .instrumentsCreate b => ApiVariant.InstrumentListResource.post db b
  | .instrumentShow i => (ApiVariant.InstrumentResource.get db i, db)
  | .instrumentUpdate i b => ApiVariant.InstrumentResource.put db i b
  | .instrumentRemove i => ApiVariant.InstrumentResource.delete db i
  | .objectsList => (ApiVariant.ObjectListResource.get db, db)
  | .objectsCreate b => ApiVariant.ObjectListResource.post db b
  | .objectShow i => (ApiVariant.ObjectResource.get db i, db)
  | .objectUpdate i b => ApiVariant.ObjectResource.put db i b
  | .objectRemove i => ApiVariant.ObjectResource.delete db i
  | .observationsList => (ApiVariant.ObservationListResource.get db, db)
  | .observationsCreate b => ApiVariant.ObservationListResource.post db b
  | .observationShow i => (ApiVariant.ObservationResource.get db i, db)
  | .observationUpdate i b => ApiVariant.ObservationResource.put db i b
  | .observationRemove i => ApiVariant.ObservationResource.delete db i
  | .objectObservations i => (ApiVariant.ObjectObservationsResource.get db i, db)
  | .placeObservations i => (ApiVariant.PlaceObservationsResource.get db i, db)
  | .instrumentObservations i => (ApiVariant.InstrumentObservationsResource.get db i, db)

/-- Does some declared field appear in the payload with a value that
fails its declared type (the claim's "field values mismatch the
declared field types")? -/
def typeMismatch (schema : List FieldSpec) (j : JObj) : Bool :=
  schema.any (fun f => j.hasKey f.fname && !(valOk f.fty (j.getD f.fname)))

/-- Is some schema-required field absent from the payload? -/
def requiredMissing (schema : List FieldSpec) (j : JObj) : Bool :=
  schema.any (fun f => f.required && !(j.hasKey f.fname))

/-- The five parent entity kinds of claim C1. -/
inductive ParentKind where
  | ptype
  | pprop
  | pplace
  | pinstr
  | pobj

/-- DELETE on a parent entity's item endpoint (`resources.py`). -/
def parentDelete : ParentKind → DB → Int → Resp × DB
  | .ptype => Resources.TypeResource.delete
  | .pprop => Resources.PropertyResource.delete
  | .pplace => Resources.PlaceResource.delete
  | .pinstr => Resources.InstrumentResource.delete
  | .pobj => Resources.ObjectResource.delete

/-- GET on a parent entity's item endpoint (`resources.py`). -/
def parentGet : ParentKind → DB → Int → Resp
  | .ptype => Resources.TypeResource.get
  | .pprop => Resources.PropertyResource.get
  | .pplace => Resources.PlaceResource.get
  | .pinstr => Resources.InstrumentResource.get
  | .pobj => Resources.ObjectResource.get

/-- Does a row with this id exist in the parent's table? -/
def parentExists (k : ParentKind) (db : DB) (i : Int) : Bool :=
  match k with
  | .ptype => (findTypeRow db.types i).isSome
  | .pprop => (findPropertyRow db.properties i).isSome
  | .pplace => (findPlaceRow db.places i).isSome
  | .pinstr => (findInstrumentRow db.instruments i).isSome
  | .pobj => (findObjectRow db.objects i).isSome

/-- Does at least one dependent row reference this parent id (an Object
referencing the Type; an Observation referencing the
Property/Place/Instrument/Object)? -/
def parentHasDependents (k : ParentKind) (db : DB) (i : Int) : Bool :=
  match k with
  | .ptype => db.objects.any (fun o => jeqInt o.type i)
  | .pprop => db.observations.any (fun o => jeqInt o.prop1 i)
  | .pplace => db.observations.any (fun o => jeqInt o.place i)
  | .pinstr => db.observations.any (fun o => jeqInt o.instrument i)
  | .pobj => db.observations.any (fun o => jeqInt o.object i)

/-- Is every payload key among the given recognized keys? -/
def keysSubset (j : JObj) (ks : List String) : Bool :=
  j.all (fun p => ks.contains p.1)

/-- The id stored by a successful create: the client-supplied integer
`id` when present, otherwise the auto-generated one. -/
def assignedId (j : JObj) (ids : List Int) : Int :=
  match j.get? "id" with
  | some (.int i) => i
  | _ => nextId ids

/-- Modelled from the claim C3 wording: the representation expected
after `create(P)` + `get`, namely P's fields merged with the
server-assigned id and defaults (null) for omitted fields — for a
Type. -/
def specMergedType (j : JObj) (rid : Int) : List (String × JScalar) :=
  [("id", .int rid), ("name", j.getD "name")]

/-- Claim C3's expected merged representation for a Property. -/
def specMergedProperty (j : JObj) (rid : Int) : List (String × JScalar) :=
  [("id", .int rid), ("name", j.getD "name"), ("valueType", j.getD "valueType")]

/-- Claim C3's expected merged representation for a Place. -/
def specMergedPlace (j : JObj) (rid : Int) : List (String × JScalar) :=
  [("id", .int rid), ("name", j.getD "name"), ("lat", j.getD "lat"), ("lon", j.getD "lon"),
   ("alt", j.getD "alt"), ("timezone", j.getD "timezone")]

/-- Claim C3's expected merged representation for an Instrument. -/
def specMergedInstrument (j : JObj) (rid : Int) : List (String × JScalar) :=
  [("id", .int rid), ("name", j.getD "name"), ("aperture", j.getD "aperture"),
   ("power", j.getD "power")]

/-- Claim C3's expected merged representation for an Object. -/
def specMergedObject (j : JObj) (rid : Int) : List (String × JScalar) :=
  [("id", .int rid), ("name", j.getD "name"), ("desination", j.getD "desination"),
   ("type", j.getD "type"), ("props", j.getD "props")]

/-- Claim C3's expected merged representation for an Observation, read
literally: every field of P appears unchanged, including the `datetime`
text. -/
def specMergedObservation (j : JObj) (rid : Int) : List (String × JScalar) :=
  [("id", .int rid), ("object", j.getD "object"), ("place", j.getD "place"),
   ("instrument", j.getD "instrument"), ("datetime", j.getD "datetime"),
   ("observation", j.getD "observation"), ("prop1", j.getD "prop1"),
   ("prop1value", j.getD "prop1value")]

/-- The amended-claim representation for an Observation: as claimed, but
the `datetime` field is returned as the ISO string of the parsed input
(the stored instant), not as the input text. -/
def specMergedObservationNorm (j : JObj) (rid : Int) (dt : PyDateTime) : List (String × JScalar) :=
  [("id", .int rid), ("object", j.getD "object"), ("place", j.getD "place"),
   ("instrument", j.getD "instrument"), ("datetime", .str dt.isoformat),
   ("observation", j.getD "observation"), ("prop1", j.getD "prop1"),
   ("prop1value", j.getD "prop1value")]

/-- Modelled from the amended claim C2 wording for an Observation
update: fields present in the body are applied (datetime after parsing,
`prop1` only when its value is truthy), absent fields keep their prior
values, the id is unchanged; `none` when a present `datetime` fails to
parse. -/
def specObservationUpdate (o : ObservationRow) (j : JObj) : Option ObservationRow :=
  match (if j.hasKey "datetime" then
           match j.getD "datetime" with
           | .str s => (fromisoformat (pyReplaceZ s)).map some
           | _ => none
         else some o.datetime : Option (Option PyDateTime)) with
  | none => none
  | some newdt =>
    some { o with
      object := if j.hasKey "object" then j.getD "object" else o.object,
      place := if j.hasKey "place" then j.getD "place" else o.place,
      instrument := if j.hasKey "instrument" then j.getD "instrument" else o.instrument,
      prop1 := if j.hasKey "prop1" && (j.getD "prop1").truthy then j.getD "prop1" else o.prop1,
      datetime := newdt,
      observation := if j.hasKey "observation" then j.getD "observation" else o.observation,
      prop1value := if j.hasKey "prop1value" then j.getD "prop1value" else o.prop1value }

/-- Does a row pass an optional inclusive lower datetime bound? -/
def startPred (sd : Option PyDateTime) (o : ObservationRow) : Bool :=
  match sd with
  | none => true
  | some d => match o.datetime with
              | some dt => decide (d.key ≤ dt.key)
              | none => false

/-- Does a row pass an optional inclusive upper datetime bound? -/
def endPred (ed : Option PyDateTime) (o : ObservationRow) : Bool :=
  match ed with
  | none => true
  | some d => match o.datetime with
              | some dt => decide (dt.key ≤ d.key)
              | none => false

/-- Does a foreign-key column pass an optional exact-match filter? -/
def idPred (v : Option Int) (x : JScalar) : Bool :=
  match v with
  | none => true
  | some i => jeqInt x i

/-- Claim C4's filter conjunction on one observation row (left-associated
in the order the handler applies the filters). -/
def obsMatches (sd ed : Option PyDateTime) (oid pid iid : Option Int)
    (o : ObservationRow) : Bool :=
  startPred sd o && endPred ed o && idPred oid o.object &&
    idPred pid o.place && idPred iid o.instrument

/-- 2025-01-01T00:00:00, no offset. -/
def dtJan1 : PyDateTime := ⟨2025, 1, 1, 0, 0, 0, 0, none⟩

/-- 2025-01-02T00:00:00, no offset. -/
def dtJan2 : PyDateTime := ⟨2025, 1, 2, 0, 0, 0, 0, none⟩

/-- 2025-01-03T00:00:00, no offset. -/
def dtJan3 : PyDateTime := ⟨2025, 1, 3, 0, 0, 0, 0, none⟩

/-- The parsed value of a date filter argument: `some none` when the
argument is absent or empty (filter skipped), `some (some d)` when the
text parses to `d`, `none` when parsing fails. -/
def parsedDateArg : Option String → Option (Option PyDateTime)
  | none => some none
  | some s =>
    if s = "" then some none
    else
      match fromisoformat (pyReplaceZ s) with
      | some d => some (some d)
      | none => none

/-- The parsed value of an integer id filter argument. -/
def parsedIntArg : Option String → Option (Option Int)
  | none => some none
  | some s =>
    if s = "" then some none
    else
      match parseIntPy s with
      | some i => some (some i)
      | none => none

/-- A small concrete database used by the witnesses: two Types (the
first referenced by the one Object), one Property, Place and Instrument,
and one Observation referencing everything with id 1. -/
def seedDB : DB :=
  { types := [⟨1, .str "Galaxy"⟩, ⟨2, .str "Planet"⟩],
    properties := [⟨1, .str "Magnitude", .str "float"⟩],
    places := [⟨1, .str "Greenwich", .str "51.4778", .str "0.0015", .null, .null⟩],
    instruments := [⟨1, .str "Telescope", .null, .null⟩],
    objects := [⟨1, .str "Andromeda", .null, .int 1, .null⟩],
    observations := [⟨1, .int 1, .int 1, .int 1, some dtJan1, .str "Bright", .int 1, .null⟩] }

/-- The seed database without observations (used to exercise creates). -/
def seedNoObs : DB :=
  { seedDB with observations := [] }

/-- Three seeded observations for the search scenario: two for object 1
(one before the 2025-01-02 start date), one for object 2. -/
def searchDB : DB :=
  { seedDB with
    objects := [⟨1, .str "Andromeda", .null, .int 1, .null⟩,
                ⟨2, .str "Mars", .null, .int 2, .null⟩],
    observations :=
      [⟨1, .int 1, .int 1, .int 1, some dtJan1, .str "early", .null, .null⟩,
       ⟨2, .int 1, .int 1, .int 1, some dtJan3, .str "late", .null, .null⟩,
       ⟨3, .int 2, .int 1, .int 1, some dtJan3, .str "other", .null, .null⟩] }

/-- Searching with the original predicate in a list filtered by its
negation finds nothing. -/
theorem find?_filter_not {α} (p : α → Bool) (l : List α) :
    (l.filter (fun a => !(p a))).find? p = none := by
  rw [List.find?_eq_none]
  intro x hx
  have h := (List.mem_filter.mp hx).2
  simp only [Bool.not_eq_true'] at h
  simp [h]

/-- `find?` skips a prefix in which it finds nothing. -/
theorem find?_append_none {α} (p : α → Bool) (l1 l2 : List α) (h : l1.find? p = none) :
    (l1 ++ l2).find? p = l2.find? p := by
  induction l1 with
  | nil => rfl
  | cons a l ih =>
    rw [List.cons_append]
    cases hpa : p a with
    | false =>
      rw [List.find?_cons_of_neg _ (by simp [hpa])] at h ⊢
      exact ih h
    | true =>
      rw [List.find?_cons_of_pos _ hpa] at h
      cases h

/-- Every member is bounded by the max-fold used for AUTO_INCREMENT. -/
theorem le_foldr_max (l : List Int) {i : Int} (h : i ∈ l) :
    i ≤ l.foldr (fun i acc => max i acc) 0 := by
  induction l with
  | nil => cases h
  | cons a l ih =>
    simp only [List.foldr]
    rcases List.mem_cons.mp h with h1 | h2
    · subst h1; exact le_max_left _ _
    · exact le_trans (ih h2) (le_max_right _ _)

/-- The AUTO_INCREMENT id is fresh: no row's projected id matches it. -/
theorem find?_beq_nextId {α} (f : α → Int) (l : List α) :
    l.find? (fun r => f r == nextId (l.map f)) = none := by
  rw [List.find?_eq_none]
  intro x hx
  simp only [beq_iff_eq]
  have h1 : f x ∈ l.map f := List.mem_map_of_mem f hx
  have h2 := le_foldr_max (l.map f) h1
  unfold nextId
  omega


/-- Replacing every matching row and then searching finds the
replacement exactly when a match existed. -/
theorem find?_replace {α} (p : α → Bool) (t : α) (l : List α) (hp : p t = true) :
    (l.map (fun a => if p a then t else a)).find? p = (l.find? p).map (fun _ => t) := by
  induction l with
  | nil => rfl
  | cons a l ih =>
    simp only [List.map_cons]
    cases hpa : p a with
    | false =>
      rw [if_neg (by simp), List.find?_cons_of_neg _ (by simp [hpa]),
          List.find?_cons_of_neg _ (by simp [hpa])]
      exact ih
    | true =>
      rw [if_pos rfl, List.find?_cons_of_pos _ hp, List.find?_cons_of_pos _ hpa]
      rfl

/-- Two successive filters equal one filter by the conjunction. -/
theorem filter_and_comp {α} (p q : α → Bool) (l : List α) :
    (l.filter p).filter q = l.filter (fun a => p a && q a) := by
  induction l with
  | nil => rfl
  | cons a l ih =>
    cases hp : p a <;> cases hq : q a <;>
      simp [List.filter_cons, hp, hq, ih]

/-- C1: for every parent entity (Type, Property, Place, Instrument,
Object) and every id, DELETE returns 404 when no row with that id
exists; returns 400 and leaves the row retrievable by a subsequent GET
when at least one dependent row references it; and returns 204 with a
subsequent GET returning 404 when no dependent row references it. -/
theorem C1_parent_delete_semantics (k : ParentKind) (db : DB) (i : Int) :
    (parentExists k db i = false →
       (parentDelete k db i).1.status = 404 ∧ (parentDelete k db i).2 = db) ∧
    (parentExists k db i = true → parentHasDependents k db i = true →
       (parentDelete k db i).1.status = 400 ∧ (parentDelete k db i).2 = db ∧
       parentGet k (parentDelete k db i).2 i = parentGet k db i ∧
       (parentGet k db i).status = 200) ∧
    (parentExists k db i = true → parentHasDependents k db i = false →
       (parentDelete k db i).1.status = 204 ∧
       (parentGet k (parentDelete k db i).2 i).status = 404) := by
  cases k with
  | ptype =>
    simp only [parentExists, parentDelete, parentGet, parentHasDependents]
    cases hf : findTypeRow db.types i with
    | none =>
      refine ⟨fun _ => ?_, fun h2 _ => ?_, fun h2 _ => ?_⟩
      · simp [Resources.TypeResource.delete, hf, mresp]
      · simp at h2
      · simp at h2
    | some t =>
      have hnone : findTypeRow (db.types.filter (fun r => !(r.id == i))) i = none := by
        simpa [findTypeRow] using find?_filter_not (fun r : TypeRow => r.id == i) db.types
      refine ⟨fun h1 => ?_, fun _ hdep => ?_, fun _ hdep => ?_⟩
      · simp at h1
      · simp [Resources.TypeResource.delete, Resources.TypeResource.get, hf, hdep, mresp]
      · simp [Resources.TypeResource.delete, Resources.TypeResource.get, hf, hdep, hnone, mresp]
  | pprop =>
    simp only [parentExists, parentDelete, parentGet, parentHasDependents]
    cases hf : findPropertyRow db.properties i with
    | none =>
      refine ⟨fun _ => ?_, fun h2 _ => ?_, fun h2 _ => ?_⟩
      · simp [Resources.PropertyResource.delete, hf, mresp]
      · simp at h2
      · simp at h2
    | some t =>
      have hnone : findPropertyRow (db.properties.filter (fun r => !(r.id == i))) i = none := by
        simpa [findPropertyRow] using find?_filter_not (fun r : PropertyRow => r.id == i) db.properties
      refine ⟨fun h1 => ?_, fun _ hdep => ?_, fun _ hdep => ?_⟩
      · simp at h1
      · simp [Resources.PropertyResource.delete, Resources.PropertyResource.get, hf, hdep, mresp]
      · simp [Resources.PropertyResource.delete, Resources.PropertyResource.get, hf, hdep, hnone, mresp]
  | pplace =>
    simp only [parentExists, parentDelete, parentGet, parentHasDependents]
    cases hf : findPlaceRow db.places i with
    | none =>
      refine ⟨fun _ => ?_, fun h2 _ => ?_, fun h2 _ => ?_⟩
      · simp [Resources.PlaceResource.delete, hf, mresp]
      · simp at h2
      · simp at h2
    | some t =>
      have hnone : findPlaceRow (db.places.filter (fun r => !(r.id == i))) i = none := by
        simpa [findPlaceRow] using find?_filter_not (fun r : PlaceRow => r.id == i) db.places
      refine ⟨fun h1 => ?_, fun _ hdep => ?_, fun _ hdep => ?_⟩
      · simp at h1
      · simp [Resources.PlaceResource.delete, Resources.PlaceResource.get, hf, hdep, mresp]
      · simp [Resources.PlaceResource.delete, Resources.PlaceResource.get, hf, hdep, hnone, mresp]
  | pinstr =>
    simp only [parentExists, parentDelete, parentGet, parentHasDependents]
    cases hf : findInstrumentRow db.instruments i with
    | none =>
      refine ⟨fun _ => ?_, fun h2 _ => ?_, fun h2 _ => ?_⟩
      · simp [Resources.InstrumentResource.delete, hf, mresp]
      · simp at h2
      · simp at h2
    | some t =>
      have hnone : findInstrumentRow (db.instruments.filter (fun r => !(r.id == i))) i = none := by
        simpa [findInstrumentRow] using
          find?_filter_not (fun r : InstrumentRow => r.id == i) db.instruments
      refine ⟨fun h1 => ?_, fun _ hdep => ?_, fun _ hdep => ?_⟩
      · simp at h1
      · simp [Resources.InstrumentResource.delete, Resources.InstrumentResource.get, hf, hdep, mresp]
      · simp [Resources.InstrumentResource.delete, Resources.InstrumentResource.get, hf, hdep,
              hnone, mresp]
  | pobj =>
    simp only [parentExists, parentDelete, parentGet, parentHasDependents]
    cases hf : findObjectRow db.objects i with
    | none =>
      refine ⟨fun _ => ?_, fun h2 _ => ?_, fun h2 _ => ?_⟩
      · simp [Resources.ObjectResource.delete, hf, mresp]
      · simp at h2
      · simp at h2
    | some t =>
      have hnone : findObjectRow (db.objects.filter (fun r => !(r.id == i))) i = none := by
        simpa [findObjectRow] using find?_filter_not (fun r : ObjectRow => r.id == i) db.objects
      refine ⟨fun h1 => ?_, fun _ hdep => ?_, fun _ hdep => ?_⟩
      · simp at h1
      · simp [Resources.ObjectResource.delete, Resources.ObjectResource.get, hf, hdep, mresp]
      · simp [Resources.ObjectResource.delete, Resources.ObjectResource.get, hf, hdep, hnone, mresp]

/-- Witness for C1 on the seeded database: Type 1 is in use (400 and
still retrievable), Type 2 is unused (204 and then 404), Type 3 is
absent (404). -/
theorem C1_parent_delete_semantics_witness :
    (parentDelete .ptype seedDB 1).1.status = 400 ∧
    (parentGet .ptype (parentDelete .ptype seedDB 1).2 1).status = 200 ∧
    (parentDelete .ptype seedDB 2).1.status = 204 ∧
    (parentGet .ptype (parentDelete .ptype seedDB 2).2 2).status = 404 ∧
    (parentDelete .ptype seedDB 3).1.status = 404 :=
  ⟨((C1_parent_delete_semantics .ptype seedDB 1).2.1 (by decide) (by decide)).1,
   by
     have h := (C1_parent_delete_semantics .ptype seedDB 1).2.1 (by decide) (by decide)
     rw [h.2.2.1]
     exact h.2.2.2,
   ((C1_parent_delete_semantics .ptype seedDB 2).2.2 (by decide) (by decide)).1,
   ((C1_parent_delete_semantics .ptype seedDB 2).2.2 (by decide) (by decide)).2,
   ((C1_parent_delete_semantics .ptype seedDB 3).1 (by decide)).1⟩

/-- In-place replacement then lookup, Type table. -/
theorem findTypeRow_replace (l : List TypeRow) (i : Int) (t1 : TypeRow)
    (h : (t1.id == i) = true) :
    findTypeRow (replaceTypeRow l i t1) i = (findTypeRow l i).map (fun _ => t1) := by
  simpa [findTypeRow, replaceTypeRow] using find?_replace (fun r : TypeRow => r.id == i) t1 l h

/-- In-place replacement then lookup, Property table. -/
theorem findPropertyRow_replace (l : List PropertyRow) (i : Int) (t1 : PropertyRow)
    (h : (t1.id == i) = true) :
    findPropertyRow (replacePropertyRow l i t1) i = (findPropertyRow l i).map (fun _ => t1) := by
  simpa [findPropertyRow, replacePropertyRow] using
    find?_replace (fun r : PropertyRow => r.id == i) t1 l h

/-- In-place replacement then lookup, Place table. -/
theorem findPlaceRow_replace (l : List PlaceRow) (i : Int) (t1 : PlaceRow)
    (h : (t1.id == i) = true) :
    findPlaceRow (replacePlaceRow l i t1) i = (findPlaceRow l i).map (fun _ => t1) := by
  simpa [findPlaceRow, replacePlaceRow] using find?_replace (fun r : PlaceRow => r.id == i) t1 l h

/-- In-place replacement then lookup, Instrument table. -/
theorem findInstrumentRow_replace (l : List InstrumentRow) (i : Int) (t1 : InstrumentRow)
    (h : (t1.id == i) = true) :
    findInstrumentRow (replaceInstrumentRow l i t1) i = (findInstrumentRow l i).map (fun _ => t1) := by
  simpa [findInstrumentRow, replaceInstrumentRow] using
    find?_replace (fun r : InstrumentRow => r.id == i) t1 l h

/-- In-place replacement then lookup, Object table. -/
theorem findObjectRow_replace (l : List ObjectRow) (i : Int) (t1 : ObjectRow)
    (h : (t1.id == i) = true) :
    findObjectRow (replaceObjectRow l i t1) i = (findObjectRow l i).map (fun _ => t1) := by
  simpa [findObjectRow, replaceObjectRow] using
    find?_replace (fun r : ObjectRow => r.id == i) t1 l h

/-- In-place replacement then lookup, Observation table. -/
theorem findObservationRow_replace (l : List ObservationRow) (i : Int) (t1 : ObservationRow)
    (h : (t1.id == i) = true) :
    findObservationRow (replaceObservationRow l i t1) i = (findObservationRow l i).map (fun _ => t1) := by
  simpa [findObservationRow, replaceObservationRow] using
    find?_replace (fun r : ObservationRow => r.id == i) t1 l h

/-- C2 counterexample: on the seeded database, a PUT of
`{"prop1": null}` to observation 1 succeeds with 200 but leaves the
stored `prop1` equal to 1 instead of applying the present key's value,
refuting the claim that the update changes exactly the fields whose keys
are present in the body. -/
theorem C2_counterexample :
    (Resources.ObservationResource.put seedDB 1 (some [("prop1", JScalar.null)])).1.status = 200 ∧
    (findObservationRow
        (Resources.ObservationResource.put seedDB 1 (some [("prop1", JScalar.null)])).2.observations
        1).map ObservationRow.prop1 = some (JScalar.int 1) ∧
    (findObservationRow
        (Resources.ObservationResource.put seedDB 1 (some [("prop1", JScalar.null)])).2.observations
        1).map ObservationRow.prop1 ≠ some JScalar.null := by
  refine ⟨rfl, rfl, ?_⟩
  decide

/-- A found Type row's id matches the key. -/
theorem findTypeRow_id {l : List TypeRow} {i : Int} {t : TypeRow}
    (h : findTypeRow l i = some t) : (t.id == i) = true := by
  unfold findTypeRow at h
  have h2 := List.find?_some h
  exact h2

/-- A found Property row's id matches the key. -/
theorem findPropertyRow_id {l : List PropertyRow} {i : Int} {t : PropertyRow}
    (h : findPropertyRow l i = some t) : (t.id == i) = true := by
  unfold findPropertyRow at h
  have h2 := List.find?_some h
  exact h2

/-- A found Place row's id matches the key. -/
theorem findPlaceRow_id {l : List PlaceRow} {i : Int} {t : PlaceRow}
    (h : findPlaceRow l i = some t) : (t.id == i) = true := by
  unfold findPlaceRow at h
  have h2 := List.find?_some h
  exact h2

/-- A found Instrument row's id matches the key. -/
theorem findInstrumentRow_id {l : List InstrumentRow} {i : Int} {t : InstrumentRow}
    (h : findInstrumentRow l i = some t) : (t.id == i) = true := by
  unfold findInstrumentRow at h
  have h2 := List.find?_some h
  exact h2

/-- A found Object row's id matches the key. -/
theorem findObjectRow_id {l : List ObjectRow} {i : Int} {t : ObjectRow}
    (h : findObjectRow l i = some t) : (t.id == i) = true := by
  unfold findObjectRow at h
  have h2 := List.find?_some h
  exact h2

/-- A found Observation row's id matches the key. -/
theorem findObservationRow_id {l : List ObservationRow} {i : Int} {t : ObservationRow}
    (h : findObservationRow l i = some t) : (t.id == i) = true := by
  unfold findObservationRow at h
  have h2 := List.find?_some h
  exact h2

/-- An Observation PUT whose body names at least one unresolvable
foreign key — `object`, `place`, `instrument`, or a truthy `prop1` —
is rejected by one of the four validation guards with a 400 and the
original state. -/
theorem obsPut_fk_400 (db : DB) (i : Int) (body : Option JObj) (j : JObj) (o : ObservationRow)
    (hb : jsonData body = some j) (hf : findObservationRow db.observations i = some o)
    (hor : ((j.hasKey "object" && (objectGetJ db.objects (j.getD "object")).isNone) ||
            ((j.hasKey "place" && (placeGetJ db.places (j.getD "place")).isNone) ||
             ((j.hasKey "instrument" &&
                 (instrumentGetJ db.instruments (j.getD "instrument")).isNone) ||
              ((j.hasKey "prop1" && (j.getD "prop1").truthy) &&
                 (propertyGetJ db.properties (j.getD "prop1")).isNone)))) = true) :
    ∃ m, Resources.ObservationResource.put db i body = (mresp 400 m, db) := by
  cases h1 : (j.hasKey "object" && (objectGetJ db.objects (j.getD "object")).isNone) with
  | true =>
    refine ⟨"Object not found", ?_⟩
    unfold Resources.ObservationResource.put
    rw [hf, hb]
    dsimp only
    rw [h1]
    rfl
  | false =>
    rw [h1, Bool.false_or] at hor
    cases h2 : (j.hasKey "place" && (placeGetJ db.places (j.getD "place")).isNone) with
    | true =>
      refine ⟨"Place not found", ?_⟩
      unfold Resources.ObservationResource.put
      rw [hf, hb]
      dsimp only
      rw [h1, h2]
      rfl
    | false =>
      rw [h2, Bool.false_or] at hor
      cases h3 : (j.hasKey "instrument" &&
          (instrumentGetJ db.instruments (j.getD "instrument")).isNone) with
      | true =>
        refine ⟨"Instrument not found", ?_⟩
        unfold Resources.ObservationResource.put
        rw [hf, hb]
        dsimp only
        rw [h1, h2, h3]
        rfl
      | false =>
        rw [h3, Bool.false_or] at hor
        refine ⟨"Property not found", ?_⟩
        unfold Resources.ObservationResource.put
        rw [hf, hb]
        dsimp only
        rw [h1, h2, h3, hor]
        rfl

/-- C2 as amended: for every entity, a successful PUT changes exactly
the fields whose keys are present in the body — except Observation's
`prop1`, which is applied only when its present value is truthy (a
falsy value such as null or 0 is ignored) — every absent field keeps
its pre-update value, and the id is unchanged; and present foreign-key
fields (`prop1` only when truthy) are re-validated before being
applied: a PUT naming an unresolvable foreign key returns 400 with the
state unchanged (last two conjuncts: Object's `type`, and
Observation's `object`/`place`/`instrument`/truthy `prop1`). -/
theorem C2_partial_update_amended :
    (∀ (db : DB) (i : Int) (body : Option JObj) (j : JObj) (t : TypeRow),
       jsonData body = some j →
       findTypeRow db.types i = some t →
       (Resources.TypeResource.put db i body).1.status = 200 ∧
       findTypeRow (Resources.TypeResource.put db i body).2.types i =
         some { id := t.id, name := if j.hasKey "name" then j.getD "name" else t.name }) ∧
    (∀ (db : DB) (i : Int) (body : Option JObj) (j : JObj) (p : PropertyRow),
       jsonData body = some j →
       findPropertyRow db.properties i = some p →
       (Resources.PropertyResource.put db i body).1.status = 200 ∧
       findPropertyRow (Resources.PropertyResource.put db i body).2.properties i =
         some { id := p.id,
                name := if j.hasKey "name" then j.getD "name" else p.name,
                valueType := if j.hasKey "valueType" then j.getD "valueType" else p.valueType }) ∧
    (∀ (db : DB) (i : Int) (body : Option JObj) (j : JObj) (p : PlaceRow),
       jsonData body = some j →
       findPlaceRow db.places i = some p →
       (Resources.PlaceResource.put db i body).1.status = 200 ∧
       findPlaceRow (Resources.PlaceResource.put db i body).2.places i =
         some { id := p.id,
                name := if j.hasKey "name" then j.getD "name" else p.name,
                lat := if j.hasKey "lat" then j.getD "lat" else p.lat,
                lon := if j.hasKey "lon" then j.getD "lon" else p.lon,
                alt := if j.hasKey "alt" then j.getD "alt" else p.alt,
                timezone := if j.hasKey "timezone" then j.getD "timezone" else p.timezone }) ∧
    (∀ (db : DB) (i : Int) (body : Option JObj) (j : JObj) (x : InstrumentRow),
       jsonData body = some j →
       findInstrumentRow db.instruments i = some x →
       (Resources.InstrumentResource.put db i body).1.status = 200 ∧
       findInstrumentRow (Resources.InstrumentResource.put db i body).2.instruments i =
         some { id := x.id,
                name := if j.hasKey "name" then j.getD "name" else x.name,
                aperture := if j.hasKey "aperture" then j.getD "aperture" else x.aperture,
                power := if j.hasKey "power" then j.getD "power" else x.power }) ∧
    (∀ (db : DB) (i : Int) (body : Option JObj) (j : JObj) (o : ObjectRow),
       jsonData body = some j →
       findObjectRow db.objects i = some o →
       (j.hasKey "type" = true → (typeGetJ db.types (j.getD "type")).isSome = true) →
       (Resources.ObjectResource.put db i body).1.status = 200 ∧
       findObjectRow (Resources.ObjectResource.put db i body).2.objects i =
         some { id := o.id,
                name := if j.hasKey "name" then j.getD "name" else o.name,
                desination := if j.hasKey "desination" then j.getD "desination" else o.desination,
                type := if j.hasKey "type" then j.getD "type" else o.type,
                props := if j.hasKey "props" then j.getD "props" else o.props }) ∧
    (∀ (db : DB) (i : Int) (body : Option JObj) (j : JObj) (o : ObservationRow)
       (o2 : ObservationRow),
       jsonData body = some j →
       findObservationRow db.observations i = some o →
       (j.hasKey "object" = true → (objectGetJ db.objects (j.getD "object")).isSome = true) →
       (j.hasKey "place" = true → (placeGetJ db.places (j.getD "place")).isSome = true) →
       (j.hasKey "instrument" = true →
          (instrumentGetJ db.instruments (j.getD "instrument")).isSome = true) →
       ((j.hasKey "prop1" && (j.getD "prop1").truthy) = true →
          (propertyGetJ db.properties (j.getD "prop1")).isSome = true) →
       specObservationUpdate o j = some o2 →
       (Resources.ObservationResource.put db i body).1.status = 200 ∧
       findObservationRow (Resources.ObservationResource.put db i body).2.observations i =
         some o2 ∧
       o2.id = o.id) ∧
    (∀ (db : DB) (i : Int) (body : Option JObj) (j : JObj) (o : ObjectRow),
       jsonData body = some j →
       findObjectRow db.objects i = some o →
       j.hasKey "type" = true →
       typeGetJ db.types (j.getD "type") = none →
       Resources.ObjectResource.put db i body = (mresp 400 "Type not found", db)) ∧
    (∀ (db : DB) (i : Int) (body : Option JObj) (j : JObj) (o : ObservationRow),
       jsonData body = some j →
       findObservationRow db.observations i = some o →
       ((j.hasKey "object" = true ∧ objectGetJ db.objects (j.getD "object") = none) ∨
        (j.hasKey "place" = true ∧ placeGetJ db.places (j.getD "place") = none) ∨
        (j.hasKey "instrument" = true ∧
           instrumentGetJ db.instruments (j.getD "instrument") = none) ∨
        ((j.hasKey "prop1" && (j.getD "prop1").truthy) = true ∧
           propertyGetJ db.properties (j.getD "prop1") = none)) →
       (Resources.ObservationResource.put db i body).1.status = 400 ∧
       (Resources.ObservationResource.put db i body).2 = db) := by
  refine ⟨?_, ?_, ?_, ?_, ?_, ?_, ?_, ?_⟩
  · intro db i body j t hb hf
    have hpt : (t.id == i) = true := findTypeRow_id hf
    constructor
    · unfold Resources.TypeResource.put
      rw [hf, hb]
    · unfold Resources.TypeResource.put
      rw [hf, hb]
      dsimp only
      rw [findTypeRow_replace _ _ _ (by simpa using hpt), hf]
      rfl
  · intro db i body j p hb hf
    have hpt : (p.id == i) = true := findPropertyRow_id hf
    constructor
    · unfold Resources.PropertyResource.put
      rw [hf, hb]
    · unfold Resources.PropertyResource.put
      rw [hf, hb]
      dsimp only
      rw [findPropertyRow_replace _ _ _ (by simpa using hpt), hf]
      rfl
  · intro db i body j p hb hf
    have hpt : (p.id == i) = true := findPlaceRow_id hf
    constructor
    · unfold Resources.PlaceResource.put
      rw [hf, hb]
    · unfold Resources.PlaceResource.put
      rw [hf, hb]
      dsimp only
      rw [findPlaceRow_replace _ _ _ (by simpa using hpt), hf]
      rfl
  · intro db i body j x hb hf
    have hpt : (x.id == i) = true := findInstrumentRow_id hf
    constructor
    · unfold Resources.InstrumentResource.put
      rw [hf, hb]
    · unfold Resources.InstrumentResource.put
      rw [hf, hb]
      dsimp only
      rw [findInstrumentRow_replace _ _ _ (by simpa using hpt), hf]
      rfl
  · intro db i body j o hb hf hty
    have hpt : (o.id == i) = true := findObjectRow_id hf
    have hc : (j.hasKey "type" && (typeGetJ db.types (j.getD "type")).isNone) = false := by
      cases hk : j.hasKey "type"
      · simp
      · rcases Option.isSome_iff_exists.mp (hty hk) with ⟨v, hv⟩
        simp [hv]
    constructor
    · unfold Resources.ObjectResource.put
      rw [hf, hb]
      simp [hc]
    · unfold Resources.ObjectResource.put
      rw [hf, hb]
      simp only [hc, Bool.false_eq_true, if_false]
      rw [findObjectRow_replace _ _ _ (by simpa using hpt), hf]
      rfl
  · intro db i body j o o2 hb hf hobj hpl hin hpr hsp
    have hpt : (o.id == i) = true := findObservationRow_id hf
    have c1 : (j.hasKey "object" && (objectGetJ db.objects (j.getD "object")).isNone) = false := by
      cases hk : j.hasKey "object"
      · simp
      · rcases Option.isSome_iff_exists.mp (hobj hk) with ⟨v, hv⟩
        simp [hv]
    have c2 : (j.hasKey "place" && (placeGetJ db.places (j.getD "place")).isNone) = false := by
      cases hk : j.hasKey "place"
      · simp
      · rcases Option.isSome_iff_exists.mp (hpl hk) with ⟨v, hv⟩
        simp [hv]
    have c3 : (j.hasKey "instrument" &&
               (instrumentGetJ db.instruments (j.getD "instrument")).isNone) = false := by
      cases hk : j.hasKey "instrument"
      · simp
      · rcases Option.isSome_iff_exists.mp (hin hk) with ⟨v, hv⟩
        simp [hv]
    have c4 : ((j.hasKey "prop1" && (j.getD "prop1").truthy) &&
               (propertyGetJ db.properties (j.getD "prop1")).isNone) = false := by
      cases hk : (j.hasKey "prop1" && (j.getD "prop1").truthy)
      · simp
      · rcases Option.isSome_iff_exists.mp (hpr hk) with ⟨v, hv⟩
        simp [hv]
    unfold specObservationUpdate at hsp
    cases hdt : (if j.hasKey "datetime" then
                   match j.getD "datetime" with
                   | JScalar.str s => (fromisoformat (pyReplaceZ s)).map some
                   | _ => none
                 else some o.datetime : Option (Option PyDateTime)) with
    | none =>
      rw [hdt] at hsp
      cases hsp
    | some dtNew =>
      rw [hdt] at hsp
      have ho2 := Option.some.inj hsp
      subst ho2
      refine ⟨?_, ?_, ?_⟩
      · unfold Resources.ObservationResource.put
        rw [hf, hb]
        simp only [c1, c2, c3, c4, Bool.false_eq_true, if_false]
        rw [hdt]
      · unfold Resources.ObservationResource.put
        rw [hf, hb]
        simp only [c1, c2, c3, c4, Bool.false_eq_true, if_false]
        rw [hdt]
        dsimp only
        rw [findObservationRow_replace _ _ _ (by simpa using hpt), hf]
        cases hk : j.hasKey "datetime" with
        | false =>
          rw [hk] at hdt
          simp only [Bool.false_eq_true, if_false] at hdt
          have hdd := Option.some.inj hdt
          simp [hk, hdd]
        | true =>
          simp [hk]
      · rfl
  · intro db i body j o hb hf hk hn
    have hc : (j.hasKey "type" && (typeGetJ db.types (j.getD "type")).isNone) = true := by
      simp [hk, hn]
    unfold Resources.ObjectResource.put
    rw [hf, hb]
    dsimp only
    rw [hc]
    rfl
  · intro db i body j o hb hf hor
    have hc : ((j.hasKey "object" && (objectGetJ db.objects (j.getD "object")).isNone) ||
               ((j.hasKey "place" && (placeGetJ db.places (j.getD "place")).isNone) ||
                ((j.hasKey "instrument" &&
                    (instrumentGetJ db.instruments (j.getD "instrument")).isNone) ||
                 ((j.hasKey "prop1" && (j.getD "prop1").truthy) &&
                    (propertyGetJ db.properties (j.getD "prop1")).isNone)))) = true := by
      rcases hor with ⟨hk, hn⟩ | ⟨hk, hn⟩ | ⟨hk, hn⟩ | ⟨hk, hn⟩
      · simp [hk, hn]
      · simp [hk, hn]
      · simp [hk, hn]
      · simp [hk, hn]
    rcases obsPut_fk_400 db i body j o hb hf hc with ⟨m, hm⟩
    rw [hm]
    exact ⟨rfl, rfl⟩

/-- Witness for the amended C2: on the seeded database, a PUT updating
`observation` and `prop1value` succeeds and changes exactly those
fields; a PUT pointing Object 1 at the missing type 999 returns 400
with the state unchanged, as does a PUT pointing Observation 1 at the
missing object 999. -/
theorem C2_partial_update_amended_witness :
    (Resources.ObservationResource.put seedDB 1
       (some [("observation", JScalar.str "Updated"), ("prop1value", JScalar.str "5.0")])).1.status
      = 200 ∧
    findObservationRow
      (Resources.ObservationResource.put seedDB 1
        (some [("observation", JScalar.str "Updated"), ("prop1value", JScalar.str "5.0")])).2.observations
      1 =
      some ⟨1, .int 1, .int 1, .int 1, some dtJan1, .str "Updated", .int 1, .str "5.0"⟩ ∧
    Resources.ObjectResource.put seedDB 1 (some [("type", JScalar.int 999)]) =
      (mresp 400 "Type not found", seedDB) ∧
    (Resources.ObservationResource.put seedDB 1 (some [("object", JScalar.int 999)])).1.status
      = 400 ∧
    (Resources.ObservationResource.put seedDB 1 (some [("object", JScalar.int 999)])).2 =
      seedDB := by
  have h := C2_partial_update_amended.2.2.2.2.2.1 seedDB 1
    (some [("observation", JScalar.str "Updated"), ("prop1value", JScalar.str "5.0")])
    [("observation", JScalar.str "Updated"), ("prop1value", JScalar.str "5.0")]
    ⟨1, .int 1, .int 1, .int 1, some dtJan1, .str "Bright", .int 1, .null⟩
    ⟨1, .int 1, .int 1, .int 1, some dtJan1, .str "Updated", .int 1, .str "5.0"⟩
    (by decide) (by decide) (by decide) (by decide) (by decide) (by decide) (by decide)
  have hobj := C2_partial_update_amended.2.2.2.2.2.2.1 seedDB 1
    (some [("type", JScalar.int 999)]) [("type", JScalar.int 999)]
    ⟨1, .str "Andromeda", .null, .int 1, .null⟩
    (by decide) (by decide) (by decide) (by decide)
  have hobs := C2_partial_update_amended.2.2.2.2.2.2.2 seedDB 1
    (some [("object", JScalar.int 999)]) [("object", JScalar.int 999)]
    ⟨1, .int 1, .int 1, .int 1, some dtJan1, .str "Bright", .int 1, .null⟩
    (by decide) (by decide) (Or.inl ⟨by decide, by decide⟩)
  exact ⟨h.1, h.2.1, hobj, hobs.1, hobs.2⟩

/-- C10: a PUT to an existing Observation whose body carries the key
`prop1` with a falsy value (null, 0, empty string, false) succeeds with
200 but leaves the stored row — in particular `prop1` — completely
unchanged, while a body carrying `prop1value: null` sets `prop1value`
to null: key presence is not the update signal for `prop1`, unlike the
other fields. -/
theorem C10_prop1_falsy_ignored :
    (∀ (db : DB) (i : Int) (o : ObservationRow) (v : JScalar),
       findObservationRow db.observations i = some o →
       v.truthy = false →
       (Resources.ObservationResource.put db i (some [("prop1", v)])).1.status = 200 ∧
       findObservationRow
         (Resources.ObservationResource.put db i (some [("prop1", v)])).2.observations i =
         some o) ∧
    (∀ (db : DB) (i : Int) (o : ObservationRow),
       findObservationRow db.observations i = some o →
       (Resources.ObservationResource.put db i (some [("prop1value", JScalar.null)])).1.status
         = 200 ∧
       findObservationRow
         (Resources.ObservationResource.put db i
           (some [("prop1value", JScalar.null)])).2.observations i =
         some { o with prop1value := JScalar.null }) := by
  constructor
  · intro db i o v hf hv
    have hpt : (o.id == i) = true := findObservationRow_id hf
    have hb : jsonData (some [("prop1", v)]) = some [("prop1", v)] := rfl
    have k1 : JObj.hasKey [("prop1", v)] "object" = false := rfl
    have k2 : JObj.hasKey [("prop1", v)] "place" = false := rfl
    have k3 : JObj.hasKey [("prop1", v)] "instrument" = false := rfl
    have k4 : JObj.hasKey [("prop1", v)] "datetime" = false := rfl
    have k5 : JObj.hasKey [("prop1", v)] "observation" = false := rfl
    have k6 : JObj.hasKey [("prop1", v)] "prop1value" = false := rfl
    have kp : JObj.hasKey [("prop1", v)] "prop1" = true := rfl
    have kg : JObj.getD [("prop1", v)] "prop1" = v := rfl
    constructor
    · unfold Resources.ObservationResource.put
      rw [hf, hb]
      simp [k1, k2, k3, k4, k5, k6, kp, kg, hv]
    · unfold Resources.ObservationResource.put
      rw [hf, hb]
      simp only [k1, k2, k3, k4, k5, k6, kp, kg, hv, Bool.false_and, Bool.true_and,
                 Bool.and_false, Bool.false_eq_true, if_false]
      rw [findObservationRow_replace _ _ _ (by simpa using hpt), hf]
      rfl
  · intro db i o hf
    have hpt : (o.id == i) = true := findObservationRow_id hf
    have hb : jsonData (some [("prop1value", JScalar.null)]) =
        some [("prop1value", JScalar.null)] := rfl
    have k1 : JObj.hasKey [("prop1value", JScalar.null)] "object" = false := rfl
    have k2 : JObj.hasKey [("prop1value", JScalar.null)] "place" = false := rfl
    have k3 : JObj.hasKey [("prop1value", JScalar.null)] "instrument" = false := rfl
    have k4 : JObj.hasKey [("prop1value", JScalar.null)] "datetime" = false := rfl
    have k5 : JObj.hasKey [("prop1value", JScalar.null)] "observation" = false := rfl
    have k6 : JObj.hasKey [("prop1value", JScalar.null)] "prop1" = false := rfl
    have kp : JObj.hasKey [("prop1value", JScalar.null)] "prop1value" = true := rfl
    have kg : JObj.getD [("prop1value", JScalar.null)] "prop1value" = JScalar.null := rfl
    constructor
    · unfold Resources.ObservationResource.put
      rw [hf, hb]
      simp [k1, k2, k3, k4, k5, k6, kp, kg]
    · unfold Resources.ObservationResource.put
      rw [hf, hb]
      simp only [k1, k2, k3, k4, k5, k6, kp, kg, Bool.false_and, Bool.true_and,
                 Bool.and_false, Bool.false_eq_true, if_false]
      rw [findObservationRow_replace _ _ _ (by simpa using hpt), hf]
      rfl

/-- Witness for C10 on the seeded database: `prop1: null` is ignored
(stored row unchanged, still `prop1 = 1`) while `prop1value: null` is
applied. -/
theorem C10_prop1_falsy_ignored_witness :
    ((Resources.ObservationResource.put seedDB 1 (some [("prop1", JScalar.null)])).1.status = 200 ∧
     findObservationRow
       (Resources.ObservationResource.put seedDB 1
         (some [("prop1", JScalar.null)])).2.observations 1 =
       some ⟨1, .int 1, .int 1, .int 1, some dtJan1, .str "Bright", .int 1, .null⟩) ∧
    ((Resources.ObservationResource.put seedDB 1
        (some [("prop1value", JScalar.null)])).1.status = 200 ∧
     findObservationRow
       (Resources.ObservationResource.put seedDB 1
         (some [("prop1value", JScalar.null)])).2.observations 1 =
       some ⟨1, .int 1, .int 1, .int 1, some dtJan1, .str "Bright", .int 1, .null⟩) :=
  ⟨C10_prop1_falsy_ignored.1 seedDB 1
     ⟨1, .int 1, .int 1, .int 1, some dtJan1, .str "Bright", .int 1, .null⟩ JScalar.null
     (by decide) (by decide),
   C10_prop1_falsy_ignored.2 seedDB 1
     ⟨1, .int 1, .int 1, .int 1, some dtJan1, .str "Bright", .int 1, .null⟩
     (by decide)⟩

/-- The observation-create handler either leaves the state unchanged or
answers 201. -/
theorem obsPost_state_or_2xx (db : DB) (b : Option JObj) :
    (Resources.ObservationListResource.post db b).2 = db ∨
    is2xx (Resources.ObservationListResource.post db b).1.status = true := by
  unfold Resources.ObservationListResource.post
  split
  · exact Or.inl rfl
  · rename_i x j hj
    cases h1 : j.hasKey "object"
    · exact Or.inl rfl
    · cases h2 : j.hasKey "place"
      · exact Or.inl rfl
      · cases h3 : j.hasKey "instrument"
        · exact Or.inl rfl
        · cases h4 : j.hasKey "datetime"
          · exact Or.inl rfl
          · cases h5 : j.hasKey "observation"
            · exact Or.inl rfl
            · cases h6 : (objectGetJ db.objects (j.getD "object")).isNone
              · cases h7 : (placeGetJ db.places (j.getD "place")).isNone
                · cases h8 : (instrumentGetJ db.instruments (j.getD "instrument")).isNone
                  · cases h9 : ((j.getD "prop1").truthy &&
                        (propertyGetJ db.properties (j.getD "prop1")).isNone)
                    · cases hd : j.getD "datetime" with
                      | null => exact Or.inl rfl
                      | bool c => exact Or.inl rfl
                      | int i => exact Or.inl rfl
                      | str s =>
                        dsimp only
                        cases hp : fromisoformat (pyReplaceZ s)
                        · exact Or.inl rfl
                        · dsimp only
                          cases hq : (!(j.getD "prop1" == JScalar.null) &&
                              (propertyGetJ db.properties (j.getD "prop1")).isNone)
                          · exact Or.inr rfl
                          · exact Or.inl rfl
                    · exact Or.inl rfl
                  · exact Or.inl rfl
                · exact Or.inl rfl
              · exact Or.inl rfl

set_option maxHeartbeats 2000000 in
/-- Every `resources.py` request either leaves the state unchanged or
answers with a 2xx status: the handlers commit only on their success
paths. -/
theorem route_state_or_2xx (db : DB) (c : ApiReq) :
    (Resources.route db c).2 = db ∨ is2xx (Resources.route db c).1.status = true := by
  cases c
  case observationsCreate b => exact obsPost_state_or_2xx db b
  all_goals
    (simp only [Resources.route,
      Resources.TypeListResource.post, Resources.TypeResource.put, Resources.TypeResource.delete,
      Resources.PropertyListResource.post, Resources.PropertyResource.put,
      Resources.PropertyResource.delete,
      Resources.PlaceListResource.post, Resources.PlaceResource.put, Resources.PlaceResource.delete,
      Resources.InstrumentListResource.post, Resources.InstrumentResource.put,
      Resources.InstrumentResource.delete,
      Resources.ObjectListResource.post, Resources.ObjectResource.put,
      Resources.ObjectResource.delete,
      Resources.ObservationResource.put, Resources.ObservationResource.delete] <;>
     (try (repeat' split)) <;>
     simp [is2xx])

/-- C5: every request to the `resources.py` API that returns a non-2xx
status leaves the stored state unchanged; in particular every failing
create, update or delete persists nothing (error paths return before
the commit, and uncommitted session changes are rolled back at request
teardown). -/
theorem C5_failed_writes_preserve_state (db : DB) (c : ApiReq) :
    is2xx (Resources.route db c).1.status = false → (Resources.route db c).2 = db := by
  intro h
  rcases route_state_or_2xx db c with hs | hs
  · exact hs
  · rw [h] at hs
    cases hs

/-- Witness for C5: POST `/api/objects` with the nonexistent type 999
returns 400 and persists no row. -/
theorem C5_failed_writes_preserve_state_witness :
    is2xx (Resources.route seedDB
      (.objectsCreate (some [("name", JScalar.str "X"), ("type", JScalar.int 999)]))).1.status
      = false ∧
    (Resources.route seedDB
      (.objectsCreate (some [("name", JScalar.str "X"), ("type", JScalar.int 999)]))).2 = seedDB :=
  ⟨by decide,
   C5_failed_writes_preserve_state seedDB
     (.objectsCreate (some [("name", JScalar.str "X"), ("type", JScalar.int 999)]))
     (by decide)⟩

/-- Filtering by the constant-true predicate keeps every row. -/
theorem filter_true_id {α} (l : List α) : l.filter (fun _ => true) = l := by
  induction l with
  | nil => rfl
  | cons a l ih => simp [List.filter_cons, ih]

/-- The start-date step succeeds and filters exactly when the argument
parses. -/
theorem startDateStep_ok (s? : Option String) (rows : List ObservationRow)
    (sd : Option PyDateTime) (h : parsedDateArg s? = some sd) :
    startDateStep s? rows = .ok (rows.filter (startPred sd)) := by
  have hnone : startPred none = fun _ : ObservationRow => true := rfl
  cases s? with
  | none =>
    simp [parsedDateArg] at h
    subst h
    simp only [startDateStep]
    rw [hnone, filter_true_id]
  | some s =>
    by_cases he : s = ""
    · subst he
      simp [parsedDateArg] at h
      subst h
      simp only [startDateStep, if_pos]
      rw [hnone, filter_true_id]
    · simp only [parsedDateArg, if_neg he] at h
      cases hp : fromisoformat (pyReplaceZ s) with
      | none => rw [hp] at h; cases h
      | some d =>
        rw [hp] at h
        simp at h
        subst h
        simp only [startDateStep, if_neg he, hp]
        rfl

/-- The end-date step succeeds and filters exactly when the argument
parses. -/
theorem endDateStep_ok (s? : Option String) (rows : List ObservationRow)
    (ed : Option PyDateTime) (h : parsedDateArg s? = some ed) :
    endDateStep s? rows = .ok (rows.filter (endPred ed)) := by
  have hnone : endPred none = fun _ : ObservationRow => true := rfl
  cases s? with
  | none =>
    simp [parsedDateArg] at h
    subst h
    simp only [endDateStep]
    rw [hnone, filter_true_id]
  | some s =>
    by_cases he : s = ""
    · subst he
      simp [parsedDateArg] at h
      subst h
      simp only [endDateStep, if_pos]
      rw [hnone, filter_true_id]
    · simp only [parsedDateArg, if_neg he] at h
      cases hp : fromisoformat (pyReplaceZ s) with
      | none => rw [hp] at h; cases h
      | some d =>
        rw [hp] at h
        simp at h
        subst h
        simp only [endDateStep, if_neg he, hp]
        rfl

/-- An id step succeeds and filters exactly when the argument parses. -/
theorem idStep_ok (s? : Option String) (m : String) (proj : ObservationRow → JScalar)
    (rows : List ObservationRow) (v : Option Int) (h : parsedIntArg s? = some v) :
    idStep s? m proj rows = .ok (rows.filter (fun o => idPred v (proj o))) := by
  cases s? with
  | none =>
    simp [parsedIntArg] at h
    subst h
    simp only [idStep]
    rw [show (fun o : ObservationRow => idPred none (proj o)) = fun _ => true from rfl,
        filter_true_id]
  | some s =>
    by_cases he : s = ""
    · subst he
      simp [parsedIntArg] at h
      subst h
      simp only [idStep, if_pos]
      rw [show (fun o : ObservationRow => idPred none (proj o)) = fun _ => true from rfl,
          filter_true_id]
    · simp only [parsedIntArg, if_neg he] at h
      cases hp : parseIntPy s with
      | none => rw [hp] at h; cases h
      | some i =>
        rw [hp] at h
        simp at h
        subst h
        simp only [idStep, if_neg he, hp]
        rfl

/-- C4: whenever every supplied filter parses, the search endpoint
returns exactly the stored Observations satisfying the conjunction of
the supplied filters (inclusive date bounds, exact id equality), and
with zero filters supplied it coincides with listing all
Observations. -/
theorem C4_search_filter_semantics :
    (∀ (db : DB) (a : SearchArgs) (sd ed : Option PyDateTime) (oid pid iid : Option Int),
       parsedDateArg a.start_date = some sd →
       parsedDateArg a.end_date = some ed →
       parsedIntArg a.object_id = some oid →
       parsedIntArg a.place_id = some pid →
       parsedIntArg a.instrument_id = some iid →
       Resources.ObservationSearchResource.get db a =
         ⟨200, .arr ((db.observations.filter (obsMatches sd ed oid pid iid)).map
           observationRepr)⟩) ∧
    (∀ db : DB,
       Resources.ObservationSearchResource.get db ⟨none, none, none, none, none⟩ =
         Resources.ObservationListResource.get db) := by
  constructor
  · intro db a sd ed oid pid iid hsd hed hoid hpid hiid
    unfold Resources.ObservationSearchResource.get Resources.ObservationSearchResource.searchRows
    rw [startDateStep_ok _ _ _ hsd]
    simp only [bind, Except.bind]
    rw [endDateStep_ok _ _ _ hed]
    simp only [bind, Except.bind]
    rw [idStep_ok _ _ _ _ _ hoid]
    simp only [bind, Except.bind]
    rw [idStep_ok _ _ _ _ _ hpid]
    simp only [bind, Except.bind]
    rw [idStep_ok _ _ _ _ _ hiid]
    simp only [bind, Except.bind, pure, Except.pure]
    simp only [filter_and_comp, obsMatches]
    rfl
  · intro db
    rfl

/-- Witness for C4: the seeded search scenario — three observations,
filters `start_date=2025-01-02T00:00:00` and `object_id=1` — returns
exactly the one matching row, and the zero-filter search lists all. -/
theorem C4_search_filter_semantics_witness :
    (Resources.ObservationSearchResource.get searchDB
       ⟨some "2025-01-02T00:00:00", none, some "1", none, none⟩ =
     ⟨200, .arr ((searchDB.observations.filter
        (obsMatches (some dtJan2) none (some 1) none none)).map observationRepr)⟩) ∧
    (searchDB.observations.filter (obsMatches (some dtJan2) none (some 1) none none)).map
        (·.id) = [2] ∧
    Resources.ObservationSearchResource.get searchDB ⟨none, none, none, none, none⟩ =
      Resources.ObservationListResource.get searchDB :=
  ⟨C4_search_filter_semantics.1 searchDB
     ⟨some "2025-01-02T00:00:00", none, some "1", none, none⟩
     (some dtJan2) none (some 1) none none
     (by decide) (by decide) (by decide) (by decide) (by decide),
   by decide,
   C4_search_filter_semantics.2 searchDB⟩

/-- C3 counterexample: creating an Observation with datetime
`2025-01-01T00:00:00Z` succeeds (201), but the subsequent GET is not
equal to the payload merged with server-assigned fields: the returned
datetime text is the normalized `2025-01-01T00:00:00+00:00`, not the
payload's `2025-01-01T00:00:00Z`. -/
theorem C3_counterexample :
    (Resources.ObservationListResource.post seedNoObs
       (some [("object", JScalar.int 1), ("place", JScalar.int 1),
              ("instrument", JScalar.int 1),
              ("datetime", JScalar.str "2025-01-01T00:00:00Z"),
              ("observation", JScalar.str "x")])).1.status = 201 ∧
    Resources.ObservationResource.get
        (Resources.ObservationListResource.post seedNoObs
          (some [("object", JScalar.int 1), ("place", JScalar.int 1),
                 ("instrument", JScalar.int 1),
                 ("datetime", JScalar.str "2025-01-01T00:00:00Z"),
                 ("observation", JScalar.str "x")])).2 1 ≠
      ⟨200, Body.obj (specMergedObservation
        [("object", JScalar.int 1), ("place", JScalar.int 1),
         ("instrument", JScalar.int 1),
         ("datetime", JScalar.str "2025-01-01T00:00:00Z"),
         ("observation", JScalar.str "x")] 1)⟩ := by
  constructor
  · rfl
  · decide

/-- C3 as amended: for every entity and valid creation payload P,
create(P) answers 201 with P merged with the server-assigned id and
null defaults, and a subsequent GET of the returned id yields that same
merged representation — except that for Observation the returned
`datetime` is the ISO text of the parsed stored instant (normalized,
e.g. a trailing Z becomes +00:00) rather than P's raw text.  Place and
Observation ids are always server-generated (the payload cannot
determine them), while Type, Property, Instrument and Object store a
client-supplied integer id when one is present. -/
theorem C3_create_get_roundtrip_amended :
    (∀ (db : DB) (body : Option JObj) (j : JObj) (rid : Int),
       jsonData body = some j →
       keysSubset j ["id", "name"] = true →
       j.hasKey "name" = true →
       chosenId j (db.types.map (·.id)) = some rid →
       findTypeRow db.types rid = none →
       Resources.TypeListResource.post db body =
         (⟨201, .obj (specMergedType j rid)⟩,
          { db with types := db.types ++ [⟨rid, j.getD "name"⟩] }) ∧
       Resources.TypeResource.get (Resources.TypeListResource.post db body).2 rid =
         ⟨200, .obj (specMergedType j rid)⟩ ∧
       (∀ i : Int, j.get? "id" = some (.int i) → rid = i)) ∧
    (∀ (db : DB) (body : Option JObj) (j : JObj) (rid : Int),
       jsonData body = some j →
       keysSubset j ["id", "name", "valueType"] = true →
       j.hasKey "name" = true →
       j.hasKey "valueType" = true →
       chosenId j (db.properties.map (·.id)) = some rid →
       findPropertyRow db.properties rid = none →
       Resources.PropertyListResource.post db body =
         (⟨201, .obj (specMergedProperty j rid)⟩,
          { db with properties :=
              db.properties ++ [⟨rid, j.getD "name", j.getD "valueType"⟩] }) ∧
       Resources.PropertyResource.get (Resources.PropertyListResource.post db body).2 rid =
         ⟨200, .obj (specMergedProperty j rid)⟩ ∧
       (∀ i : Int, j.get? "id" = some (.int i) → rid = i)) ∧
    (∀ (db : DB) (body : Option JObj) (j : JObj),
       jsonData body = some j →
       keysSubset j ["id", "name", "lat", "lon", "alt", "timezone"] = true →
       j.hasKey "name" = true →
       j.hasKey "lat" = true →
       j.hasKey "lon" = true →
       Resources.PlaceListResource.post db body =
         (⟨201, .obj (specMergedPlace j (nextId (db.places.map (·.id))))⟩,
          { db with places := db.places ++
              [⟨nextId (db.places.map (·.id)), j.getD "name", j.getD "lat", j.getD "lon",
                j.getD "alt", j.getD "timezone"⟩] }) ∧
       Resources.PlaceResource.get (Resources.PlaceListResource.post db body).2
           (nextId (db.places.map (·.id))) =
         ⟨200, .obj (specMergedPlace j (nextId (db.places.map (·.id))))⟩) ∧
    (∀ (db : DB) (body : Option JObj) (j : JObj) (rid : Int),
       jsonData body = some j →
       keysSubset j ["id", "name", "aperture", "power"] = true →
       j.hasKey "name" = true →
       chosenId j (db.instruments.map (·.id)) = some rid →
       findInstrumentRow db.instruments rid = none →
       Resources.InstrumentListResource.post db body =
         (⟨201, .obj (specMergedInstrument j rid)⟩,
          { db with instruments :=
              db.instruments ++ [⟨rid, j.getD "name", j.getD "aperture", j.getD "power"⟩] }) ∧
       Resources.InstrumentResource.get (Resources.InstrumentListResource.post db body).2 rid =
         ⟨200, .obj (specMergedInstrument j rid)⟩ ∧
       (∀ i : Int, j.get? "id" = some (.int i) → rid = i)) ∧
    (∀ (db : DB) (body : Option JObj) (j : JObj) (rid : Int),
       jsonData body = some j →
       keysSubset j ["id", "name", "desination", "type", "props"] = true →
       j.hasKey "name" = true →
       j.hasKey "type" = true →
       (typeGetJ db.types (j.getD "type")).isSome = true →
       chosenId j (db.objects.map (·.id)) = some rid →
       findObjectRow db.objects rid = none →
       Resources.ObjectListResource.post db body =
         (⟨201, .obj (specMergedObject j rid)⟩,
          { db with objects := db.objects ++
              [⟨rid, j.getD "name", j.getD "desination", j.getD "type", j.getD "props"⟩] }) ∧
       Resources.ObjectResource.get (Resources.ObjectListResource.post db body).2 rid =
         ⟨200, .obj (specMergedObject j rid)⟩ ∧
       (∀ i : Int, j.get? "id" = some (.int i) → rid = i)) ∧
    (∀ (db : DB) (body : Option JObj) (j : JObj) (ds : String) (dt : PyDateTime),
       jsonData body = some j →
       keysSubset j ["id", "object", "place", "instrument", "datetime", "observation",
                     "prop1", "prop1value"] = true →
       j.hasKey "object" = true →
       j.hasKey "place" = true →
       j.hasKey "instrument" = true →
       j.hasKey "datetime" = true →
       j.hasKey "observation" = true →
       (objectGetJ db.objects (j.getD "object")).isSome = true →
       (placeGetJ db.places (j.getD "place")).isSome = true →
       (instrumentGetJ db.instruments (j.getD "instrument")).isSome = true →
       (j.getD "prop1" = JScalar.null ∨
         ((j.getD "prop1").truthy = true ∧
          (propertyGetJ db.properties (j.getD "prop1")).isSome = true)) →
       j.getD "datetime" = JScalar.str ds →
       fromisoformat (pyReplaceZ ds) = some dt →
       Resources.ObservationListResource.post db body =
         (⟨201, .obj (specMergedObservationNorm j (nextId (db.observations.map (·.id))) dt)⟩,
          { db with observations := db.observations ++
              [⟨nextId (db.observations.map (·.id)), j.getD "object", j.getD "place",
                j.getD "instrument", some dt, j.getD "observation", j.getD "prop1",
                j.getD "prop1value"⟩] }) ∧
       Resources.ObservationResource.get (Resources.ObservationListResource.post db body).2
           (nextId (db.observations.map (·.id))) =
         ⟨200, .obj (specMergedObservationNorm j (nextId (db.observations.map (·.id))) dt)⟩) := by
  refine ⟨?_, ?_, ?_, ?_, ?_, ?_⟩
  · intro db body j rid hb hk hname hcid hfresh
    have happ : findTypeRow (db.types ++ [(⟨rid, j.getD "name"⟩ : TypeRow)]) rid =
        some ⟨rid, j.getD "name"⟩ := by
      unfold findTypeRow
      rw [find?_append_none _ _ _ (by simpa [findTypeRow] using hfresh),
          List.find?_cons_of_pos _ (by simp)]
    have hpost : Resources.TypeListResource.post db body =
        (⟨201, .obj (specMergedType j rid)⟩,
         { db with types := db.types ++ [⟨rid, j.getD "name"⟩] }) := by
      unfold Resources.TypeListResource.post
      rw [hb]
      dsimp only
      rw [hcid]
      simp only [hname, hfresh]
      rfl
    refine ⟨hpost, ?_, ?_⟩
    · rw [hpost]
      unfold Resources.TypeResource.get
      dsimp only
      rw [happ]
      rfl
    · intro i hi
      unfold chosenId at hcid
      rw [hi] at hcid
      exact (Option.some.inj hcid).symm
  · intro db body j rid hb hk hname hvt hcid hfresh
    have happ : findPropertyRow
        (db.properties ++ [(⟨rid, j.getD "name", j.getD "valueType"⟩ : PropertyRow)]) rid =
        some ⟨rid, j.getD "name", j.getD "valueType"⟩ := by
      unfold findPropertyRow
      rw [find?_append_none _ _ _ (by simpa [findPropertyRow] using hfresh),
          List.find?_cons_of_pos _ (by simp)]
    have hpost : Resources.PropertyListResource.post db body =
        (⟨201, .obj (specMergedProperty j rid)⟩,
         { db with properties := db.properties ++ [⟨rid, j.getD "name", j.getD "valueType"⟩] }) := by
      unfold Resources.PropertyListResource.post
      rw [hb]
      dsimp only
      rw [hcid]
      simp only [hname, hvt, hfresh]
      rfl
    refine ⟨hpost, ?_, ?_⟩
    · rw [hpost]
      unfold Resources.PropertyResource.get
      dsimp only
      rw [happ]
      rfl
    · intro i hi
      unfold chosenId at hcid
      rw [hi] at hcid
      exact (Option.some.inj hcid).symm
  · intro db body j hb hk hname hlat hlon
    have hfresh : findPlaceRow db.places (nextId (db.places.map (·.id))) = none := by
      unfold findPlaceRow
      exact find?_beq_nextId (fun r : PlaceRow => r.id) db.places
    have happ : findPlaceRow
        (db.places ++ [(⟨nextId (db.places.map (·.id)), j.getD "name", j.getD "lat",
          j.getD "lon", j.getD "alt", j.getD "timezone"⟩ : PlaceRow)])
        (nextId (db.places.map (·.id))) =
        some ⟨nextId (db.places.map (·.id)), j.getD "name", j.getD "lat", j.getD "lon",
          j.getD "alt", j.getD "timezone"⟩ := by
      unfold findPlaceRow
      rw [find?_append_none _ _ _ (by simpa [findPlaceRow] using hfresh),
          List.find?_cons_of_pos _ (by simp)]
    have hpost : Resources.PlaceListResource.post db body =
        (⟨201, .obj (specMergedPlace j (nextId (db.places.map (·.id))))⟩,
         { db with places := db.places ++
             [⟨nextId (db.places.map (·.id)), j.getD "name", j.getD "lat", j.getD "lon",
               j.getD "alt", j.getD "timezone"⟩] }) := by
      unfold Resources.PlaceListResource.post
      rw [hb]
      dsimp only
      simp only [hname, hlat, hlon]
      rfl
    refine ⟨hpost, ?_⟩
    rw [hpost]
    unfold Resources.PlaceResource.get
    dsimp only
    rw [happ]
    rfl
  · intro db body j rid hb hk hname hcid hfresh
    have happ : findInstrumentRow
        (db.instruments ++ [(⟨rid, j.getD "name", j.getD "aperture", j.getD "power"⟩ :
          InstrumentRow)]) rid =
        some ⟨rid, j.getD "name", j.getD "aperture", j.getD "power"⟩ := by
      unfold findInstrumentRow
      rw [find?_append_none _ _ _ (by simpa [findInstrumentRow] using hfresh),
          List.find?_cons_of_pos _ (by simp)]
    have hpost : Resources.InstrumentListResource.post db body =
        (⟨201, .obj (specMergedInstrument j rid)⟩,
         { db with instruments :=
             db.instruments ++ [⟨rid, j.getD "name", j.getD "aperture", j.getD "power"⟩] }) := by
      unfold Resources.InstrumentListResource.post
      rw [hb]
      dsimp only
      rw [hcid]
      simp only [hname, hfresh]
      rfl
    refine ⟨hpost, ?_, ?_⟩
    · rw [hpost]
      unfold Resources.InstrumentResource.get
      dsimp only
      rw [happ]
      rfl
    · intro i hi
      unfold chosenId at hcid
      rw [hi] at hcid
      exact (Option.some.inj hcid).symm
  · intro db body j rid hb hk hname htype hfk hcid hfresh
    rcases Option.isSome_iff_exists.mp hfk with ⟨tv, htv⟩
    have happ : findObjectRow
        (db.objects ++ [(⟨rid, j.getD "name", j.getD "desination", j.getD "type",
          j.getD "props"⟩ : ObjectRow)]) rid =
        some ⟨rid, j.getD "name", j.getD "desination", j.getD "type", j.getD "props"⟩ := by
      unfold findObjectRow
      rw [find?_append_none _ _ _ (by simpa [findObjectRow] using hfresh),
          List.find?_cons_of_pos _ (by simp)]
    have hpost : Resources.ObjectListResource.post db body =
        (⟨201, .obj (specMergedObject j rid)⟩,
         { db with objects := db.objects ++
             [⟨rid, j.getD "name", j.getD "desination", j.getD "type", j.getD "props"⟩] }) := by
      unfold Resources.ObjectListResource.post
      rw [hb]
      dsimp only
      rw [hcid]
      simp only [hname, htype, htv, hfresh]
      rfl
    refine ⟨hpost, ?_, ?_⟩
    · rw [hpost]
      unfold Resources.ObjectResource.get
      dsimp only
      rw [happ]
      rfl
    · intro i hi
      unfold chosenId at hcid
      rw [hi] at hcid
      exact (Option.some.inj hcid).symm
  · intro db body j ds dt hb hk h1 h2 h3 h4 h5 hfo hfp hfi hp1 hds hdt
    rcases Option.isSome_iff_exists.mp hfo with ⟨ov, hov⟩
    rcases Option.isSome_iff_exists.mp hfp with ⟨pv, hpv⟩
    rcases Option.isSome_iff_exists.mp hfi with ⟨iv, hiv⟩
    have c4 : ((j.getD "prop1").truthy &&
        (propertyGetJ db.properties (j.getD "prop1")).isNone) = false := by
      rcases hp1 with h | ⟨ht, hs⟩
      · simp [h, JScalar.truthy]
      · rcases Option.isSome_iff_exists.mp hs with ⟨v, hv⟩
        simp [hv]
    have c5 : (!(j.getD "prop1" == JScalar.null) &&
        (propertyGetJ db.properties (j.getD "prop1")).isNone) = false := by
      rcases hp1 with h | ⟨ht, hs⟩
      · simp [h]
      · rcases Option.isSome_iff_exists.mp hs with ⟨v, hv⟩
        simp [hv]
    have hfresh : findObservationRow db.observations
        (nextId (db.observations.map (·.id))) = none := by
      unfold findObservationRow
      exact find?_beq_nextId (fun r : ObservationRow => r.id) db.observations
    have happ : findObservationRow
        (db.observations ++ [(⟨nextId (db.observations.map (·.id)), j.getD "object",
          j.getD "place", j.getD "instrument", some dt, j.getD "observation",
          j.getD "prop1", j.getD "prop1value"⟩ : ObservationRow)])
        (nextId (db.observations.map (·.id))) =
        some ⟨nextId (db.observations.map (·.id)), j.getD "object", j.getD "place",
          j.getD "instrument", some dt, j.getD "observation", j.getD "prop1",
          j.getD "prop1value"⟩ := by
      unfold findObservationRow
      rw [find?_append_none _ _ _ (by simpa [findObservationRow] using hfresh),
          List.find?_cons_of_pos _ (by simp)]
    have hpost : Resources.ObservationListResource.post db body =
        (⟨201, .obj (specMergedObservationNorm j (nextId (db.observations.map (·.id))) dt)⟩,
         { db with observations := db.observations ++
             [⟨nextId (db.observations.map (·.id)), j.getD "object", j.getD "place",
               j.getD "instrument", some dt, j.getD "observation", j.getD "prop1",
               j.getD "prop1value"⟩] }) := by
      unfold Resources.ObservationListResource.post
      rw [hb]
      dsimp only
      simp only [h1, h2, h3, h4, h5, hov, hpv, hiv, c4, c5]
      rw [hds]
      dsimp only
      rw [hdt]
      rfl
    refine ⟨hpost, ?_⟩
    rw [hpost]
    unfold Resources.ObservationResource.get
    dsimp only
    rw [happ]
    rfl

/-- Witness for the amended C3: a Type created with client-supplied id 7
round-trips through GET as the payload merged with that id, and an
Observation created with a trailing-Z datetime round-trips with the
server-generated id 1 and the normalized datetime text. -/
theorem C3_create_get_roundtrip_amended_witness :
    (Resources.TypeListResource.post emptyDB
       (some [("id", JScalar.int 7), ("name", JScalar.str "Star")])).1 =
      ⟨201, .obj (specMergedType [("id", JScalar.int 7), ("name", JScalar.str "Star")] 7)⟩ ∧
    Resources.TypeResource.get
        (Resources.TypeListResource.post emptyDB
          (some [("id", JScalar.int 7), ("name", JScalar.str "Star")])).2 7 =
      ⟨200, .obj (specMergedType [("id", JScalar.int 7), ("name", JScalar.str "Star")] 7)⟩ ∧
    Resources.ObservationResource.get
        (Resources.ObservationListResource.post seedNoObs
          (some [("object", JScalar.int 1), ("place", JScalar.int 1),
                 ("instrument", JScalar.int 1),
                 ("datetime", JScalar.str "2025-01-01T00:00:00Z"),
                 ("observation", JScalar.str "x")])).2 1 =
      ⟨200, .obj (specMergedObservationNorm
        [("object", JScalar.int 1), ("place", JScalar.int 1), ("instrument", JScalar.int 1),
         ("datetime", JScalar.str "2025-01-01T00:00:00Z"), ("observation", JScalar.str "x")]
        1 ⟨2025, 1, 1, 0, 0, 0, 0, some 0⟩)⟩ := by
  refine ⟨?_, ?_, ?_⟩
  · exact congrArg Prod.fst
      ((C3_create_get_roundtrip_amended.1 emptyDB
        (some [("id", JScalar.int 7), ("name", JScalar.str "Star")])
        [("id", JScalar.int 7), ("name", JScalar.str "Star")] 7
        (by decide) (by decide) (by decide) (by decide) (by decide)).1)
  · exact (C3_create_get_roundtrip_amended.1 emptyDB
      (some [("id", JScalar.int 7), ("name", JScalar.str "Star")])
      [("id", JScalar.int 7), ("name", JScalar.str "Star")] 7
      (by decide) (by decide) (by decide) (by decide) (by decide)).2.1
  · exact (C3_create_get_roundtrip_amended.2.2.2.2.2 seedNoObs
      (some [("object", JScalar.int 1), ("place", JScalar.int 1),
             ("instrument", JScalar.int 1),
             ("datetime", JScalar.str "2025-01-01T00:00:00Z"),
             ("observation", JScalar.str "x")])
      [("object", JScalar.int 1), ("place", JScalar.int 1), ("instrument", JScalar.int 1),
       ("datetime", JScalar.str "2025-01-01T00:00:00Z"), ("observation", JScalar.str "x")]
      "2025-01-01T00:00:00Z" ⟨2025, 1, 1, 0, 0, 0, 0, some 0⟩
      (by decide) (by decide) (by decide) (by decide) (by decide) (by decide) (by decide)
      (by decide) (by decide) (by decide) (by decide) (by decide) (by decide)).2

/-- C6 counterexample: in the `astronomy_api.py` variant, GET
`/api/objects/1/observations` on an empty database returns 200 with an
empty list although no Object with id 1 exists, refuting the claim that
the endpoint returns 404 when the parent row is absent. -/
theorem C6_counterexample :
    findObjectRow emptyDB.objects 1 = none ∧
    ApiVariant.ObjectObservationsResource.get emptyDB 1 = ⟨200, .arr []⟩ ∧
    (ApiVariant.ObjectObservationsResource.get emptyDB 1).status ≠ 404 := by
  decide

/-- C6 as amended: the `resources.py` relationship endpoints validate
parent existence first — 404 when the parent id is absent, otherwise
exactly the Observations whose foreign key equals the id — while the
`astronomy_api.py` variant performs no parent check and always returns
the (possibly empty) list of matching Observations with 200. -/
theorem C6_relationship_endpoints_amended :
    (∀ (db : DB) (i : Int),
       (findObjectRow db.objects i = none →
          Resources.ObjectObservationsResource.get db i = mresp 404 "Object not found") ∧
       (∀ o, findObjectRow db.objects i = some o →
          Resources.ObjectObservationsResource.get db i =
            ⟨200, .arr ((db.observations.filter (fun x => jeqInt x.object i)).map
              observationRepr)⟩)) ∧
    (∀ (db : DB) (i : Int),
       (findPlaceRow db.places i = none →
          Resources.PlaceObservationsResource.get db i = mresp 404 "Place not found") ∧
       (∀ p, findPlaceRow db.places i = some p →
          Resources.PlaceObservationsResource.get db i =
            ⟨200, .arr ((db.observations.filter (fun x => jeqInt x.place i)).map
              observationRepr)⟩)) ∧
    (∀ (db : DB) (i : Int),
       (findInstrumentRow db.instruments i = none →
          Resources.InstrumentObservationsResource.get db i = mresp 404 "Instrument not found") ∧
       (∀ x, findInstrumentRow db.instruments i = some x →
          Resources.InstrumentObservationsResource.get db i =
            ⟨200, .arr ((db.observations.filter (fun x => jeqInt x.instrument i)).map
              observationRepr)⟩)) ∧
    (∀ (db : DB) (i : Int),
       ApiVariant.ObjectObservationsResource.get db i =
         ⟨200, .arr ((db.observations.filter (fun x => jeqInt x.object i)).map
           observationRepr)⟩ ∧
       ApiVariant.PlaceObservationsResource.get db i =
         ⟨200, .arr ((db.observations.filter (fun x => jeqInt x.place i)).map
           observationRepr)⟩ ∧
       ApiVariant.InstrumentObservationsResource.get db i =
         ⟨200, .arr ((db.observations.filter (fun x => jeqInt x.instrument i)).map
           observationRepr)⟩) := by
  refine ⟨?_, ?_, ?_, ?_⟩
  · intro db i
    constructor
    · intro h
      unfold Resources.ObjectObservationsResource.get
      rw [h]
    · intro o h
      unfold Resources.ObjectObservationsResource.get
      rw [h]
  · intro db i
    constructor
    · intro h
      unfold Resources.PlaceObservationsResource.get
      rw [h]
    · intro p h
      unfold Resources.PlaceObservationsResource.get
      rw [h]
  · intro db i
    constructor
    · intro h
      unfold Resources.InstrumentObservationsResource.get
      rw [h]
    · intro x h
      unfold Resources.InstrumentObservationsResource.get
      rw [h]
  · intro db i
    exact ⟨rfl, rfl, rfl⟩

/-- Witness for the amended C6: object 1 exists in the seeded database
(200 with its one observation), object 2 does not (404 from the
`resources.py` endpoint, empty 200 from the variant). -/
theorem C6_relationship_endpoints_amended_witness :
    Resources.ObjectObservationsResource.get seedDB 1 =
      ⟨200, .arr ((seedDB.observations.filter (fun x => jeqInt x.object 1)).map
        observationRepr)⟩ ∧
    Resources.ObjectObservationsResource.get seedDB 2 = mresp 404 "Object not found" ∧
    ApiVariant.ObjectObservationsResource.get seedDB 2 =
      ⟨200, .arr ((seedDB.observations.filter (fun x => jeqInt x.object 2)).map
        observationRepr)⟩ :=
  ⟨(C6_relationship_endpoints_amended.1 seedDB 1).2
     ⟨1, .str "Andromeda", .null, .int 1, .null⟩ (by decide),
   (C6_relationship_endpoints_amended.1 seedDB 2).1 (by decide),
   (C6_relationship_endpoints_amended.2.2.2 seedDB 2).1⟩

/-- C7: Observation datetime input is ISO-8601 text with a trailing `Z`
rewritten to `+00:00` before parsing.  On any database where object,
place and instrument 1 exist, POSTing `2025-01-01T00:00:00Z` stores the
instant 2025-01-01T00:00:00 at UTC offset +00:00, and a subsequent GET
returns the ISO text `2025-01-01T00:00:00+00:00` of that stored
instant; and any POST whose datetime text fails ISO parsing (all other
validation passing) yields 400 with the message naming the expected
format. -/
theorem C7_datetime_semantics :
    (∀ db : DB,
       (objectGetJ db.objects (.int 1)).isSome = true →
       (placeGetJ db.places (.int 1)).isSome = true →
       (instrumentGetJ db.instruments (.int 1)).isSome = true →
       (Resources.ObservationListResource.post db
          (some [("object", JScalar.int 1), ("place", JScalar.int 1),
                 ("instrument", JScalar.int 1),
                 ("datetime", JScalar.str "2025-01-01T00:00:00Z"),
                 ("observation", JScalar.str "x")])).1.status = 201 ∧
       findObservationRow
         (Resources.ObservationListResource.post db
           (some [("object", JScalar.int 1), ("place", JScalar.int 1),
                  ("instrument", JScalar.int 1),
                  ("datetime", JScalar.str "2025-01-01T00:00:00Z"),
                  ("observation", JScalar.str "x")])).2.observations
         (nextId (db.observations.map (·.id))) =
         some ⟨nextId (db.observations.map (·.id)), .int 1, .int 1, .int 1,
               some ⟨2025, 1, 1, 0, 0, 0, 0, some 0⟩, .str "x", .null, .null⟩ ∧
       Resources.ObservationResource.get
         (Resources.ObservationListResource.post db
           (some [("object", JScalar.int 1), ("place", JScalar.int 1),
                  ("instrument", JScalar.int 1),
                  ("datetime", JScalar.str "2025-01-01T00:00:00Z"),
                  ("observation", JScalar.str "x")])).2
         (nextId (db.observations.map (·.id))) =
         ⟨200, .obj [("id", .int (nextId (db.observations.map (·.id)))),
                     ("object", .int 1), ("place", .int 1), ("instrument", .int 1),
                     ("datetime", .str "2025-01-01T00:00:00+00:00"),
                     ("observation", .str "x"), ("prop1", .null), ("prop1value", .null)]⟩) ∧
    (∀ (db : DB) (body : Option JObj) (j : JObj) (ds : String),
       jsonData body = some j →
       j.hasKey "object" = true →
       j.hasKey "place" = true →
       j.hasKey "instrument" = true →
       j.hasKey "datetime" = true →
       j.hasKey "observation" = true →
       (objectGetJ db.objects (j.getD "object")).isSome = true →
       (placeGetJ db.places (j.getD "place")).isSome = true →
       (instrumentGetJ db.instruments (j.getD "instrument")).isSome = true →
       ((j.getD "prop1").truthy &&
          (propertyGetJ db.properties (j.getD "prop1")).isNone) = false →
       j.getD "datetime" = JScalar.str ds →
       fromisoformat (pyReplaceZ ds) = none →
       Resources.ObservationListResource.post db body =
         (mresp 400 "Invalid datetime format. Use ISO format (YYYY-MM-DDTHH:MM:SS)", db)) := by
  constructor
  · intro db hfo hfp hfi
    rcases Option.isSome_iff_exists.mp hfo with ⟨ov, hov⟩
    rcases Option.isSome_iff_exists.mp hfp with ⟨pv, hpv⟩
    rcases Option.isSome_iff_exists.mp hfi with ⟨iv, hiv⟩
    have hpost : Resources.ObservationListResource.post db
        (some [("object", JScalar.int 1), ("place", JScalar.int 1),
               ("instrument", JScalar.int 1),
               ("datetime", JScalar.str "2025-01-01T00:00:00Z"),
               ("observation", JScalar.str "x")]) =
        (⟨201, .obj (observationRepr ⟨nextId (db.observations.map (·.id)), .int 1, .int 1,
            .int 1, some ⟨2025, 1, 1, 0, 0, 0, 0, some 0⟩, .str "x", .null, .null⟩)⟩,
         { db with observations := db.observations ++
             [⟨nextId (db.observations.map (·.id)), .int 1, .int 1, .int 1,
               some ⟨2025, 1, 1, 0, 0, 0, 0, some 0⟩, .str "x", .null, .null⟩] }) := by
      unfold Resources.ObservationListResource.post
      have e1 : JObj.getD
          [("object", JScalar.int 1), ("place", JScalar.int 1), ("instrument", JScalar.int 1),
           ("datetime", JScalar.str "2025-01-01T00:00:00Z"), ("observation", JScalar.str "x")]
          "object" = JScalar.int 1 := rfl
      have e2 : JObj.getD
          [("object", JScalar.int 1), ("place", JScalar.int 1), ("instrument", JScalar.int 1),
           ("datetime", JScalar.str "2025-01-01T00:00:00Z"), ("observation", JScalar.str "x")]
          "place" = JScalar.int 1 := rfl
      have e3 : JObj.getD
          [("object", JScalar.int 1), ("place", JScalar.int 1), ("instrument", JScalar.int 1),
           ("datetime", JScalar.str "2025-01-01T00:00:00Z"), ("observation", JScalar.str "x")]
          "instrument" = JScalar.int 1 := rfl
      have hb0 : jsonData (some
          [("object", JScalar.int 1), ("place", JScalar.int 1), ("instrument", JScalar.int 1),
           ("datetime", JScalar.str "2025-01-01T00:00:00Z"),
           ("observation", JScalar.str "x")]) = some
          [("object", JScalar.int 1), ("place", JScalar.int 1), ("instrument", JScalar.int 1),
           ("datetime", JScalar.str "2025-01-01T00:00:00Z"),
           ("observation", JScalar.str "x")] := rfl
      rw [hb0]
      dsimp only
      simp only [e1, e2, e3, hov, hpv, hiv]
      rfl
    have hfresh : findObservationRow db.observations
        (nextId (db.observations.map (·.id))) = none := by
      unfold findObservationRow
      exact find?_beq_nextId (fun r : ObservationRow => r.id) db.observations
    have happ : findObservationRow
        (db.observations ++ [(⟨nextId (db.observations.map (·.id)), .int 1, .int 1, .int 1,
          some ⟨2025, 1, 1, 0, 0, 0, 0, some 0⟩, .str "x", .null, .null⟩ : ObservationRow)])
        (nextId (db.observations.map (·.id))) =
        some ⟨nextId (db.observations.map (·.id)), .int 1, .int 1, .int 1,
          some ⟨2025, 1, 1, 0, 0, 0, 0, some 0⟩, .str "x", .null, .null⟩ := by
      unfold findObservationRow
      rw [find?_append_none _ _ _ (by simpa [findObservationRow] using hfresh),
          List.find?_cons_of_pos _ (by simp)]
    refine ⟨?_, ?_, ?_⟩
    · rw [hpost]
    · rw [hpost]
      dsimp only
      rw [happ]
    · rw [hpost]
      unfold Resources.ObservationResource.get
      dsimp only
      rw [happ]
      rfl
  · intro db body j ds hb h1 h2 h3 h4 h5 hfo hfp hfi c4 hds hdt
    rcases Option.isSome_iff_exists.mp hfo with ⟨ov, hov⟩
    rcases Option.isSome_iff_exists.mp hfp with ⟨pv, hpv⟩
    rcases Option.isSome_iff_exists.mp hfi with ⟨iv, hiv⟩
    unfold Resources.ObservationListResource.post
    rw [hb]
    dsimp only
    simp only [h1, h2, h3, h4, h5, hov, hpv, hiv, c4]
    rw [hds]
    dsimp only
    rw [hdt]
    rfl

/-- Witness for C7 on the seeded database: the Z-datetime POST stores
the +00:00 instant and GET echoes it; `not-a-date` yields the 400 with
the format message. -/
theorem C7_datetime_semantics_witness :
    (Resources.ObservationListResource.post seedNoObs
       (some [("object", JScalar.int 1), ("place", JScalar.int 1),
              ("instrument", JScalar.int 1),
              ("datetime", JScalar.str "2025-01-01T00:00:00Z"),
              ("observation", JScalar.str "x")])).1.status = 201 ∧
    Resources.ObservationListResource.post seedNoObs
        (some [("object", JScalar.int 1), ("place", JScalar.int 1),
               ("instrument", JScalar.int 1),
               ("datetime", JScalar.str "not-a-date"),
               ("observation", JScalar.str "x")]) =
      (mresp 400 "Invalid datetime format. Use ISO format (YYYY-MM-DDTHH:MM:SS)", seedNoObs) :=
  ⟨(C7_datetime_semantics.1 seedNoObs (by decide) (by decide) (by decide)).1,
   C7_datetime_semantics.2 seedNoObs
     (some [("object", JScalar.int 1), ("place", JScalar.int 1),
            ("instrument", JScalar.int 1), ("datetime", JScalar.str "not-a-date"),
            ("observation", JScalar.str "x")])
     [("object", JScalar.int 1), ("place", JScalar.int 1), ("instrument", JScalar.int 1),
      ("datetime", JScalar.str "not-a-date"), ("observation", JScalar.str "x")]
     "not-a-date"
     (by decide) (by decide) (by decide) (by decide) (by decide) (by decide) (by decide)
     (by decide) (by decide) (by decide) (by decide) (by decide)⟩

/-- A failing start-date step produces a 400 message response. -/
theorem startDateStep_err (s? : Option String) (rows : List ObservationRow) (r : Resp)
    (h : startDateStep s? rows = .error r) : ∃ m, r = mresp 400 m := by
  unfold startDateStep at h
  cases s? with
  | none => simp at h
  | some s =>
    dsimp only at h
    by_cases he : s = ""
    · rw [if_pos he] at h
      simp at h
    · rw [if_neg he] at h
      cases hp : fromisoformat (pyReplaceZ s) with
      | some d => rw [hp] at h; simp at h
      | none => rw [hp] at h; exact ⟨_, (Except.error.inj h).symm⟩

/-- A failing end-date step produces a 400 message response. -/
theorem endDateStep_err (s? : Option String) (rows : List ObservationRow) (r : Resp)
    (h : endDateStep s? rows = .error r) : ∃ m, r = mresp 400 m := by
  unfold endDateStep at h
  cases s? with
  | none => simp at h
  | some s =>
    dsimp only at h
    by_cases he : s = ""
    · rw [if_pos he] at h
      simp at h
    · rw [if_neg he] at h
      cases hp : fromisoformat (pyReplaceZ s) with
      | some d => rw [hp] at h; simp at h
      | none => rw [hp] at h; exact ⟨_, (Except.error.inj h).symm⟩

/-- A failing id step produces a 400 message response. -/
theorem idStep_err (s? : Option String) (m0 : String) (proj : ObservationRow → JScalar)
    (rows : List ObservationRow) (r : Resp)
    (h : idStep s? m0 proj rows = .error r) : ∃ m, r = mresp 400 m := by
  unfold idStep at h
  cases s? with
  | none => simp at h
  | some s =>
    dsimp only at h
    by_cases he : s = ""
    · rw [if_pos he] at h
      simp at h
    · rw [if_neg he] at h
      cases hp : parseIntPy s with
      | some i => rw [hp] at h; simp at h
      | none => rw [hp] at h; exact ⟨_, (Except.error.inj h).symm⟩

/-- Every error of the search query builder is a 400 message
response. -/
theorem searchRows_err (db : DB) (a : SearchArgs) (r : Resp)
    (h : Resources.ObservationSearchResource.searchRows db a = .error r) :
    ∃ m, r = mresp 400 m := by
  unfold Resources.ObservationSearchResource.searchRows at h
  cases h1 : startDateStep a.start_date db.observations with
  | error e =>
    rw [h1] at h
    simp only [bind, Except.bind] at h
    rcases startDateStep_err _ _ _ h1 with ⟨m, rfl⟩
    exact ⟨m, (Except.error.inj h).symm⟩
  | ok q1 =>
    rw [h1] at h
    simp only [bind, Except.bind] at h
    cases h2 : endDateStep a.end_date q1 with
    | error e =>
      rw [h2] at h
      simp only [bind, Except.bind] at h
      rcases endDateStep_err _ _ _ h2 with ⟨m, rfl⟩
      exact ⟨m, (Except.error.inj h).symm⟩
    | ok q2 =>
      rw [h2] at h
      simp only [bind, Except.bind] at h
      cases h3 : idStep a.object_id "Invalid object_id format. Must be an integer"
          (fun o => o.object) q2 with
      | error e =>
        rw [h3] at h
        simp only [bind, Except.bind] at h
        rcases idStep_err _ _ _ _ _ h3 with ⟨m, rfl⟩
        exact ⟨m, (Except.error.inj h).symm⟩
      | ok q3 =>
        rw [h3] at h
        simp only [bind, Except.bind] at h
        cases h4 : idStep a.place_id "Invalid place_id format. Must be an integer"
            (fun o => o.place) q3 with
        | error e =>
          rw [h4] at h
          simp only [bind, Except.bind] at h
          rcases idStep_err _ _ _ _ _ h4 with ⟨m, rfl⟩
          exact ⟨m, (Except.error.inj h).symm⟩
        | ok q4 =>
          rw [h4] at h
          simp only [bind, Except.bind] at h
          cases h5 : idStep a.instrument_id "Invalid instrument_id format. Must be an integer"
              (fun o => o.instrument) q4 with
          | error e =>
            rw [h5] at h
            simp only [bind, Except.bind] at h
            rcases idStep_err _ _ _ _ _ h5 with ⟨m, rfl⟩
            exact ⟨m, (Except.error.inj h).symm⟩
          | ok q5 =>
            rw [h5] at h
            simp only [bind, Except.bind, pure, Except.pure] at h
            cases h

/-- The observation-create handler answers 2xx or a message-bodied
400/404/500. -/
theorem obsPost_resp_classified (db : DB) (b : Option JObj) :
    is2xx (Resources.ObservationListResource.post db b).1.status = true ∨
    (isMsgBody (Resources.ObservationListResource.post db b).1.body = true ∧
     ((Resources.ObservationListResource.post db b).1.status = 400 ∨
      (Resources.ObservationListResource.post db b).1.status = 404 ∨
      (Resources.ObservationListResource.post db b).1.status = 500)) := by
  unfold Resources.ObservationListResource.post
  split
  · exact Or.inr ⟨rfl, Or.inl rfl⟩
  · rename_i x j hj
    cases h1 : j.hasKey "object"
    · exact Or.inr ⟨rfl, Or.inl rfl⟩
    · cases h2 : j.hasKey "place"
      · exact Or.inr ⟨rfl, Or.inl rfl⟩
      · cases h3 : j.hasKey "instrument"
        · exact Or.inr ⟨rfl, Or.inl rfl⟩
        · cases h4 : j.hasKey "datetime"
          · exact Or.inr ⟨rfl, Or.inl rfl⟩
          · cases h5 : j.hasKey "observation"
            · exact Or.inr ⟨rfl, Or.inl rfl⟩
            · cases h6 : (objectGetJ db.objects (j.getD "object")).isNone
              · cases h7 : (placeGetJ db.places (j.getD "place")).isNone
                · cases h8 : (instrumentGetJ db.instruments (j.getD "instrument")).isNone
                  · cases h9 : ((j.getD "prop1").truthy &&
                        (propertyGetJ db.properties (j.getD "prop1")).isNone)
                    · cases hd : j.getD "datetime" with
                      | null => exact Or.inr ⟨rfl, Or.inl rfl⟩
                      | bool c => exact Or.inr ⟨rfl, Or.inl rfl⟩
                      | int i => exact Or.inr ⟨rfl, Or.inl rfl⟩
                      | str s =>
                        dsimp only
                        cases hp : fromisoformat (pyReplaceZ s)
                        · exact Or.inr ⟨rfl, Or.inl rfl⟩
                        · dsimp only
                          cases hq : (!(j.getD "prop1" == JScalar.null) &&
                              (propertyGetJ db.properties (j.getD "prop1")).isNone)
                          · exact Or.inl rfl
                          · exact Or.inr ⟨rfl, Or.inr (Or.inr rfl)⟩
                    · exact Or.inr ⟨rfl, Or.inl rfl⟩
                  · exact Or.inr ⟨rfl, Or.inl rfl⟩
                · exact Or.inr ⟨rfl, Or.inl rfl⟩
              · exact Or.inr ⟨rfl, Or.inl rfl⟩

set_option maxHeartbeats 2000000 in
/-- Every `resources.py` response is either 2xx or carries a JSON body
with exactly the single string field `message` and one of the statuses
400, 404, 500. -/
theorem route_resp_classified (db : DB) (c : ApiReq) :
    is2xx (Resources.route db c).1.status = true ∨
    (isMsgBody (Resources.route db c).1.body = true ∧
     ((Resources.route db c).1.status = 400 ∨ (Resources.route db c).1.status = 404 ∨
      (Resources.route db c).1.status = 500)) := by
  cases c
  case observationsCreate b => exact obsPost_resp_classified db b
  case observationSearch a =>
    simp only [Resources.route]
    unfold Resources.ObservationSearchResource.get
    cases hs : Resources.ObservationSearchResource.searchRows db a with
    | error r =>
      rcases searchRows_err db a r hs with ⟨m, rfl⟩
      exact Or.inr ⟨rfl, Or.inl rfl⟩
    | ok rows => exact Or.inl rfl
  all_goals
    (simp only [Resources.route,
      Resources.TypeListResource.get, Resources.TypeListResource.post,
      Resources.TypeResource.get, Resources.TypeResource.put, Resources.TypeResource.delete,
      Resources.PropertyListResource.get, Resources.PropertyListResource.post,
      Resources.PropertyResource.get, Resources.PropertyResource.put,
      Resources.PropertyResource.delete,
      Resources.PlaceListResource.get, Resources.PlaceListResource.post,
      Resources.PlaceResource.get, Resources.PlaceResource.put, Resources.PlaceResource.delete,
      Resources.InstrumentListResource.get, Resources.InstrumentListResource.post,
      Resources.InstrumentResource.get, Resources.InstrumentResource.put,
      Resources.InstrumentResource.delete,
      Resources.ObjectListResource.get, Resources.ObjectListResource.post,
      Resources.ObjectResource.get, Resources.ObjectResource.put,
      Resources.ObjectResource.delete,
      Resources.ObservationListResource.get, Resources.ObservationResource.get,
      Resources.ObservationResource.put, Resources.ObservationResource.delete,
      Resources.ObjectObservationsResource.get, Resources.PlaceObservationsResource.get,
      Resources.InstrumentObservationsResource.get] <;>
     (try (repeat' split)) <;>
     simp [is2xx, isMsgBody, mresp, msgBody])

/-- The variant observation-create handler answers 2xx or a
message-bodied 400/404/422/500. -/
theorem apiObsPost_resp_classified (db : DB) (b : Option JObj) :
    is2xx (ApiVariant.ObservationListResource.post db b).1.status = true ∨
    (isMsgBody (ApiVariant.ObservationListResource.post db b).1.body = true ∧
     ((ApiVariant.ObservationListResource.post db b).1.status = 400 ∨
      (ApiVariant.ObservationListResource.post db b).1.status = 404 ∨
      (ApiVariant.ObservationListResource.post db b).1.status = 422 ∨
      (ApiVariant.ObservationListResource.post db b).1.status = 500)) := by
  unfold ApiVariant.ObservationListResource.post
  split
  · exact Or.inr ⟨rfl, Or.inl rfl⟩
  · rename_i x j hj
    cases hl : loadCheck observationSchemaFields j
    · exact Or.inr ⟨rfl, Or.inr (Or.inr (Or.inl rfl))⟩
    · cases h6 : (objectGetJ db.objects (j.getD "object")).isNone
      · cases h7 : (placeGetJ db.places (j.getD "place")).isNone
        · cases h8 : (instrumentGetJ db.instruments (j.getD "instrument")).isNone
          · cases h9 : ((j.getD "prop1").truthy &&
                (propertyGetJ db.properties (j.getD "prop1")).isNone)
            · cases hd : j.getD "datetime" with
              | null => exact Or.inr ⟨rfl, Or.inl rfl⟩
              | bool c => exact Or.inr ⟨rfl, Or.inl rfl⟩
              | int i => exact Or.inr ⟨rfl, Or.inl rfl⟩
              | str s =>
                dsimp only
                cases hp : fromisoformat (pyReplaceZ s)
                · exact Or.inr ⟨rfl, Or.inl rfl⟩
                · dsimp only
                  cases hq : (!(j.getD "prop1" == JScalar.null) &&
                      (propertyGetJ db.properties (j.getD "prop1")).isNone)
                  · exact Or.inl rfl
                  · exact Or.inr ⟨rfl, Or.inr (Or.inr (Or.inr rfl))⟩
            · exact Or.inr ⟨rfl, Or.inl rfl⟩
          · exact Or.inr ⟨rfl, Or.inl rfl⟩
        · exact Or.inr ⟨rfl, Or.inl rfl⟩
      · exact Or.inr ⟨rfl, Or.inl rfl⟩

set_option maxHeartbeats 2000000 in
/-- Every `astronomy_api.py` response (search excluded, see `ApiReqV`)
is either 2xx or carries a single-`message` JSON body with status 400,
404, 422 or 500. -/
theorem routeV_resp_classified (db : DB) (c : ApiReqV) :
    is2xx (ApiVariant.route db c).1.status = true ∨
    (isMsgBody (ApiVariant.route db c).1.body = true ∧
     ((ApiVariant.route db c).1.status = 400 ∨ (ApiVariant.route db c).1.status = 404 ∨
      (ApiVariant.route db c).1.status = 422 ∨ (ApiVariant.route db c).1.status = 500)) := by
  cases c
  case observationsCreate b => exact apiObsPost_resp_classified db b
  all_goals
    (simp only [ApiVariant.route,
      ApiVariant.TypeListResource.get, ApiVariant.TypeListResource.post,
      ApiVariant.TypeResource.get, ApiVariant.TypeResource.put, ApiVariant.TypeResource.delete,
      ApiVariant.PropertyListResource.get, ApiVariant.PropertyListResource.post,
      ApiVariant.PropertyResource.get, ApiVariant.PropertyResource.put,
      ApiVariant.PropertyResource.delete,
      ApiVariant.PlaceListResource.get, ApiVariant.PlaceListResource.post,
      ApiVariant.PlaceResource.get, ApiVariant.PlaceResource.put, ApiVariant.PlaceResource.delete,
      ApiVariant.InstrumentListResource.get, ApiVariant.InstrumentListResource.post,
      ApiVariant.InstrumentResource.get, ApiVariant.InstrumentResource.put,
      ApiVariant.InstrumentResource.delete,
      ApiVariant.ObjectListResource.get, ApiVariant.ObjectListResource.post,
      ApiVariant.ObjectResource.get, ApiVariant.ObjectResource.put,
      ApiVariant.ObjectResource.delete,
      ApiVariant.ObservationListResource.get, ApiVariant.ObservationResource.get,
      ApiVariant.ObservationResource.put, ApiVariant.ObservationResource.delete,
      ApiVariant.ObjectObservationsResource.get, ApiVariant.PlaceObservationsResource.get,
      ApiVariant.InstrumentObservationsResource.get] <;>
     (try (repeat' split)) <;>
     simp [is2xx, isMsgBody, mresp, msgBody, notFound404, valFailResp, integrityError500])

/-- C8 counterexample: in `resources.py` (the implementation served by
`server.py`), POST `/api/types` with the type-mismatched body
`{"name": 123}` returns 201, not 422 — no schema-level validation
exists there. -/
theorem C8_counterexample :
    typeMismatch typeSchemaFields [("name", JScalar.int 123)] = true ∧
    (Resources.TypeListResource.post emptyDB (some [("name", JScalar.int 123)])).1.status = 201 ∧
    (Resources.TypeListResource.post emptyDB (some [("name", JScalar.int 123)])).1.status ≠ 422 := by
  decide

/-- C8 as amended: the `resources.py` implementation never returns 422
(wrong-typed field values pass straight through); schema-level 422
validation exists only in the `astronomy_api.py` variant, where every
entity's POST and PUT runs `Schema.load` first and returns 422 whenever
it fails — which happens both for type-mismatched field values and for
missing required fields — distinct from that variant's 400 cases
(missing body, unresolvable foreign key). -/
theorem C8_schema_validation_amended :
    (∀ (db : DB) (c : ApiReq), (Resources.route db c).1.status ≠ 422) ∧
    (∀ (schema : List FieldSpec) (j : JObj),
       requiredMissing schema j = true → loadCheck schema j = false) ∧
    (∀ (schema : List FieldSpec) (j : JObj),
       typeMismatch schema j = true → loadCheck schema j = false) ∧
    (∀ (db : DB) (body : Option JObj) (j : JObj),
       jsonData body = some j → loadCheck typeSchemaFields j = false →
       ApiVariant.TypeListResource.post db body = (valFailResp, db)) ∧
    (∀ (db : DB) (body : Option JObj) (j : JObj),
       jsonData body = some j → loadCheck propertySchemaFields j = false →
       ApiVariant.PropertyListResource.post db body = (valFailResp, db)) ∧
    (∀ (db : DB) (body : Option JObj) (j : JObj),
       jsonData body = some j → loadCheck placeSchemaFields j = false →
       ApiVariant.PlaceListResource.post db body = (valFailResp, db)) ∧
    (∀ (db : DB) (body : Option JObj) (j : JObj),
       jsonData body = some j → loadCheck instrumentSchemaFields j = false →
       ApiVariant.InstrumentListResource.post db body = (valFailResp, db)) ∧
    (∀ (db : DB) (body : Option JObj) (j : JObj),
       jsonData body = some j → loadCheck objectSchemaFields j = false →
       ApiVariant.ObjectListResource.post db body = (valFailResp, db)) ∧
    (∀ (db : DB) (body : Option JObj) (j : JObj),
       jsonData body = some j → loadCheck observationSchemaFields j = false →
       ApiVariant.ObservationListResource.post db body = (valFailResp, db)) ∧
    (∀ (db : DB) (i : Int) (body : Option JObj) (j : JObj) (t : TypeRow),
       findTypeRow db.types i = some t →
       jsonData body = some j → loadCheck typeSchemaFields j = false →
       ApiVariant.TypeResource.put db i body = (valFailResp, db)) ∧
    (∀ (db : DB) (i : Int) (body : Option JObj) (j : JObj) (t : PropertyRow),
       findPropertyRow db.properties i = some t →
       jsonData body = some j → loadCheck propertySchemaFields j = false →
       ApiVariant.PropertyResource.put db i body = (valFailResp, db)) ∧
    (∀ (db : DB) (i : Int) (body : Option JObj) (j : JObj) (t : PlaceRow),
       findPlaceRow db.places i = some t →
       jsonData body = some j → loadCheck placeSchemaFields j = false →
       ApiVariant.PlaceResource.put db i body = (valFailResp, db)) ∧
    (∀ (db : DB) (i : Int) (body : Option JObj) (j : JObj) (t : InstrumentRow),
       findInstrumentRow db.instruments i = some t →
       jsonData body = some j → loadCheck instrumentSchemaFields j = false →
       ApiVariant.InstrumentResource.put db i body = (valFailResp, db)) ∧
    (∀ (db : DB) (i : Int) (body : Option JObj) (j : JObj) (t : ObjectRow),
       findObjectRow db.objects i = some t →
       jsonData body = some j → loadCheck objectSchemaFields j = false →
       ApiVariant.ObjectResource.put db i body = (valFailResp, db)) ∧
    (∀ (db : DB) (i : Int) (body : Option JObj) (j : JObj) (t : ObservationRow),
       findObservationRow db.observations i = some t →
       jsonData body = some j → loadCheck observationSchemaFields j = false →
       ApiVariant.ObservationResource.put db i body = (valFailResp, db)) := by
  refine ⟨?_, ?_, ?_, ?_, ?_, ?_, ?_, ?_, ?_, ?_, ?_, ?_, ?_, ?_, ?_⟩
  · intro db c h
    rcases route_resp_classified db c with hl | ⟨_, h4 | h4 | h4⟩
    · rw [h] at hl
      exact absurd hl (by decide)
    · rw [h] at h4
      exact absurd h4 (by decide)
    · rw [h] at h4
      exact absurd h4 (by decide)
    · rw [h] at h4
      exact absurd h4 (by decide)
  · intro schema j h
    rcases List.any_eq_true.mp h with ⟨f, hf, hcond⟩
    rw [Bool.and_eq_true] at hcond
    have hk : j.hasKey f.fname = false := by simpa using hcond.2
    have hall : (schema.all fun f =>
        if j.hasKey f.fname then valOk f.fty (j.getD f.fname) else !f.required) = false := by
      by_contra hc
      rw [Bool.not_eq_false] at hc
      have hff := List.all_eq_true.mp hc f hf
      simp [hk, hcond.1] at hff
    unfold loadCheck
    rw [hall, Bool.and_false]
  · intro schema j h
    rcases List.any_eq_true.mp h with ⟨f, hf, hcond⟩
    rw [Bool.and_eq_true] at hcond
    have hv : valOk f.fty (j.getD f.fname) = false := by simpa using hcond.2
    have hall : (schema.all fun f =>
        if j.hasKey f.fname then valOk f.fty (j.getD f.fname) else !f.required) = false := by
      by_contra hc
      rw [Bool.not_eq_false] at hc
      have hff := List.all_eq_true.mp hc f hf
      simp [hcond.1, hv] at hff
    unfold loadCheck
    rw [hall, Bool.and_false]
  · intro db body j hb hl
    unfold ApiVariant.TypeListResource.post
    rw [hb]
    dsimp only
    simp only [hl]
    rfl
  · intro db body j hb hl
    unfold ApiVariant.PropertyListResource.post
    rw [hb]
    dsimp only
    simp only [hl]
    rfl
  · intro db body j hb hl
    unfold ApiVariant.PlaceListResource.post
    rw [hb]
    dsimp only
    simp only [hl]
    rfl
  · intro db body j hb hl
    unfold ApiVariant.InstrumentListResource.post
    rw [hb]
    dsimp only
    simp only [hl]
    rfl
  · intro db body j hb hl
    unfold ApiVariant.ObjectListResource.post
    rw [hb]
    dsimp only
    simp only [hl]
    rfl
  · intro db body j hb hl
    unfold ApiVariant.ObservationListResource.post
    rw [hb]
    dsimp only
    simp only [hl]
    rfl
  · intro db i body j t hft hb hl
    unfold ApiVariant.TypeResource.put
    rw [hft]
    dsimp only
    rw [hb]
    dsimp only
    simp only [hl]
    rfl
  · intro db i body j t hft hb hl
    unfold ApiVariant.PropertyResource.put
    rw [hft]
    dsimp only
    rw [hb]
    dsimp only
    simp only [hl]
    rfl
  · intro db i body j t hft hb hl
    unfold ApiVariant.PlaceResource.put
    rw [hft]
    dsimp only
    rw [hb]
    dsimp only
    simp only [hl]
    rfl
  · intro db i body j t hft hb hl
    unfold ApiVariant.InstrumentResource.put
    rw [hft]
    dsimp only
    rw [hb]
    dsimp only
    simp only [hl]
    rfl
  · intro db i body j t hft hb hl
    unfold ApiVariant.ObjectResource.put
    rw [hft]
    dsimp only
    rw [hb]
    dsimp only
    simp only [hl]
    rfl
  · intro db i body j t hft hb hl
    unfold ApiVariant.ObservationResource.put
    rw [hft]
    dsimp only
    rw [hb]
    dsimp only
    simp only [hl]
    rfl

/-- Witness for the amended C8: in the variant, POST `/api/types` with
`{"name": 123}` (type mismatch) and with `{}`-adjacent
`{"other": "x"}` (required `name` missing) both fail `load` and return
422. -/
theorem C8_schema_validation_amended_witness :
    ApiVariant.TypeListResource.post emptyDB (some [("name", JScalar.int 123)]) =
      (valFailResp, emptyDB) ∧
    ApiVariant.TypeListResource.post emptyDB (some [("other", JScalar.str "x")]) =
      (valFailResp, emptyDB) :=
  ⟨C8_schema_validation_amended.2.2.2.1 emptyDB (some [("name", JScalar.int 123)])
     [("name", JScalar.int 123)] (by decide) (by decide),
   C8_schema_validation_amended.2.2.2.1 emptyDB (some [("other", JScalar.str "x")])
     [("other", JScalar.str "x")] (by decide) (by decide)⟩

/-- C9: every non-2xx response, in both `resources.py` and the
`astronomy_api.py` variant, carries a JSON body that is an object with
exactly one field, the string `message`; and every 204 response reaches
the client with an empty body (werkzeug strips bodies from 204). -/
theorem C9_error_body_contract :
    (∀ (db : DB) (c : ApiReq),
       is2xx (Resources.route db c).1.status = false →
       isMsgBody (Resources.route db c).1.body = true) ∧
    (∀ (db : DB) (c : ApiReq),
       (Resources.route db c).1.status = 204 →
       wsgiBody (Resources.route db c).1 = Body.empty) ∧
    (∀ (db : DB) (c : ApiReqV),
       is2xx (ApiVariant.route db c).1.status = false →
       isMsgBody (ApiVariant.route db c).1.body = true) ∧
    (∀ (db : DB) (c : ApiReqV),
       (ApiVariant.route db c).1.status = 204 →
       wsgiBody (ApiVariant.route db c).1 = Body.empty) := by
  refine ⟨?_, ?_, ?_, ?_⟩
  · intro db c h
    rcases route_resp_classified db c with hl | ⟨hm, _⟩
    · rw [h] at hl
      exact Bool.noConfusion hl
    · exact hm
  · intro db c h
    unfold wsgiBody
    rw [h]
    simp
  · intro db c h
    rcases routeV_resp_classified db c with hl | ⟨hm, _⟩
    · rw [h] at hl
      exact Bool.noConfusion hl
    · exact hm
  · intro db c h
    unfold wsgiBody
    rw [h]
    simp

/-- Witness for C9: a concrete 404 (GET on a missing type) has a
one-field message body in both implementations, and a concrete 204
(DELETE of the unused type 2 of the seed state) reaches the client with
an empty body in both. -/
theorem C9_error_body_contract_witness :
    (is2xx (Resources.route emptyDB (ApiReq.typeShow 1)).1.status = false ∧
     isMsgBody (Resources.route emptyDB (ApiReq.typeShow 1)).1.body = true) ∧
    ((Resources.route seedDB (ApiReq.typeRemove 2)).1.status = 204 ∧
     wsgiBody (Resources.route seedDB (ApiReq.typeRemove 2)).1 = Body.empty) ∧
    (is2xx (ApiVariant.route emptyDB (ApiReqV.typeShow 1)).1.status = false ∧
     isMsgBody (ApiVariant.route emptyDB (ApiReqV.typeShow 1)).1.body = true) ∧
    ((ApiVariant.route seedDB (ApiReqV.typeRemove 2)).1.status = 204 ∧
     wsgiBody (ApiVariant.route seedDB (ApiReqV.typeRemove 2)).1 = Body.empty) :=
  ⟨⟨by decide, C9_error_body_contract.1 emptyDB (ApiReq.typeShow 1) (by decide)⟩,
   ⟨by decide, C9_error_body_contract.2.1 seedDB (ApiReq.typeRemove 2) (by decide)⟩,
   ⟨by decide, C9_error_body_contract.2.2.1 emptyDB (ApiReqV.typeShow 1) (by decide)⟩,
   ⟨by decide, C9_error_body_contract.2.2.2 seedDB (ApiReqV.typeRemove 2) (by decide)⟩⟩
